import Mathlib

/-
  Verification development for the insight-bot telemetry-backend query
  adapter layer (the Jaeger / Loki / Prometheus tool modules under
  src/chatbot/app/mcp_servers/).

  The Python modules are shallowly embedded: each tool entry point becomes a
  Lean function from its validated inputs plus the decoded backend JSON
  response to `Except PyExc result`.  The HTTP gateway itself (URL assembly,
  the GET call, JSON decoding) is abstracted away: a tool is modelled as the
  function applied to whatever response the gateway produced.  Backend JSON
  dictionaries become structures whose optional keys are `Option` fields;
  a `dict.get(k, default)` access becomes `Option.getD`.  Wall-clock
  timestamp fields that the code merely stamps into results
  (`retrieved_at`, `analysis_time`, `executed_at`, ...) are omitted from the
  result records since nothing downstream reads them.  Python exceptions
  raised and caught inside a tool are modelled by the `PyExc` error type of
  the `Except` monad, with each tool's try/except wrapper embedded as an
  explicit catch-and-wrap combinator.
-/

namespace InsightBot

/-- Python exception values that the adapter modules raise or catch:
the three backend error classes plus the builtin exceptions that the
embedded code paths can produce (`KeyError` from a missing dict key,
`ValueError` from `int()` / `datetime.fromisoformat`). -/
inductive PyExc where
  | jaegerAPIError (msg : String)
  | lokiAPIError (msg : String)
  | prometheusAPIError (msg : String)
  | keyError (key : String)
  | valueError (msg : String)
deriving DecidableEq

/-- Python `str(exc)` for the exceptions above: the message for the
message-carrying classes, and the `repr` of the key for `KeyError`
(`str(KeyError('data')) == "'data'"`). -/
def pyStrExc : PyExc → String
  | .jaegerAPIError m => m
  | .lokiAPIError m => m
  | .prometheusAPIError m => m
  | .keyError k => "'" ++ k ++ "'"
  | .valueError m => m

/-- Python truthiness of an optional string: `None` and `""` are falsy. -/
def truthyOpt : Option String → Bool
  | none => false
  | some s => s != ""

/-- Characters stripped by Python `int()` around a numeric literal
(space, tab, newline, carriage return, vertical tab, form feed). -/
def pyIsSpace (c : Char) : Bool :=
  c == ' ' || c == '\t' || c == '\n' || c == '\r' ||
    c == Char.ofNat 11 || c == Char.ofNat 12

/-- Strip leading and trailing Python whitespace from a character list. -/
def stripChars (cs : List Char) : List Char :=
  ((cs.dropWhile pyIsSpace).reverse.dropWhile pyIsSpace).reverse

/-- After the first character of a Python integer literal: digits, with a
single underscore allowed between digits (`int("1_0") == 10`). -/
def underscoreTail : List Char → Bool
  | [] => true
  | c :: rest =>
    if c == '_' then
      match rest with
      | [] => false
      | d :: rest2 => d.isDigit && underscoreTail rest2
    else c.isDigit && underscoreTail rest

/-- A nonempty digit sequence, with single underscores allowed between
digits (the body of a Python integer literal after the optional sign). -/
def validDigitsU : List Char → Bool
  | [] => false
  | c :: rest => c.isDigit && underscoreTail rest

/-- Decimal value of a digit sequence, ignoring underscore separators. -/
def digitsToNat (cs : List Char) : Nat :=
  (cs.filter (fun c => c != '_')).foldl (fun a c => 10 * a + (c.toNat - 48)) 0

/-- Python `int(str)` on a character list: optional surrounding whitespace,
optional sign, then a nonempty digit sequence with single underscores
between digits; `none` models a raised `ValueError`. -/
def pythonIntChars (cs0 : List Char) : Option Int :=
  let cs := stripChars cs0
  match cs with
  | [] => none
  | c :: rest =>
    if c == '+' then
      if validDigitsU rest then some (digitsToNat rest : Int) else none
    else if c == '-' then
      if validDigitsU rest then some (-(digitsToNat rest : Int)) else none
    else if validDigitsU (c :: rest) then some (digitsToNat (c :: rest) : Int)
    else none

/-- Python `int(str)` on a string. -/
def pythonInt (s : String) : Option Int :=
  pythonIntChars s.toList

/-- A Python value that can appear in a tag mapping handed to the trace
search tool: the branches the code distinguishes (`bool` via `isinstance`,
everything else via `str(v)`; strings and ints cover the tag values the
tool's docstring admits). -/
inductive PyVal where
  | pyBool (b : Bool)
  | pyStr (s : String)
  | pyInt (n : Int)
deriving DecidableEq

/-- Python `isinstance(v, bool)`. -/
def is_bool_val : PyVal → Bool
  | .pyBool _ => true
  | _ => false

/-- Python `str(v)` for the tag values above (`str(True) == "True"`). -/
def py_str_of_val : PyVal → String
  | .pyBool b => if b then "True" else "False"
  | .pyStr s => s
  | .pyInt n => toString n

/-- Python `f"{x}"` for an optional string (`str(None) == "None"`). -/
def py_str_opt : Option String → String
  | none => "None"
  | some s => s

/-- ASCII lowercasing of one character. -/
def ascii_lower_char (c : Char) : Char :=
  if 65 ≤ c.toNat ∧ c.toNat ≤ 90 then Char.ofNat (c.toNat + 32) else c

/-- Python `str.lower()` over the ASCII range (the only strings lowercased
in this codebase are `"True"` and `"False"`). -/
def ascii_lower (s : String) : String :=
  String.mk (s.toList.map ascii_lower_char)

/-- Hexadecimal digit character (lowercase, as Python's json module emits). -/
def hexDigit (n : Nat) : Char :=
  if n < 10 then Char.ofNat (48 + n) else Char.ofNat (87 + n)

/-- Four-digit lowercase hex rendering used by `\uXXXX` escapes. -/
def hex4 (n : Nat) : String :=
  String.mk [hexDigit (n / 4096 % 16), hexDigit (n / 256 % 16),
             hexDigit (n / 16 % 16), hexDigit (n % 16)]

/-- One character of a JSON string as Python `json.dumps` (default
`ensure_ascii=True`) renders it: the two mandatory escapes, the short
control escapes, `\uXXXX` for other controls and all non-ASCII (with a
surrogate pair above the BMP), and the character itself otherwise. -/
def jsonEscapeChar (c : Char) : String :=
  if c == '"' then "\\\""
  else if c == '\\' then "\\\\"
  else if c == '\n' then "\\n"
  else if c == '\r' then "\\r"
  else if c == '\t' then "\\t"
  else if c == Char.ofNat 8 then "\\b"
  else if c == Char.ofNat 12 then "\\f"
  else if c.toNat < 32 || c.toNat > 126 then
    if c.toNat < 65536 then "\\u" ++ hex4 c.toNat
    else
      let n := c.toNat - 65536
      "\\u" ++ hex4 (55296 + n / 1024) ++ "\\u" ++ hex4 (56320 + n % 1024)
  else String.singleton c

/-- A JSON string literal as `json.dumps` renders it. -/
def jsonQuote (s : String) : String :=
  "\"" ++ String.join (s.toList.map jsonEscapeChar) ++ "\""

/-- Python `json.dumps` of a string-to-string dict (default separators:
`", "` between items, `": "` after a key). -/
def json_dumps_str_obj (pairs : List (String × String)) : String :=
  "\x7b" ++
    String.intercalate ", "
      (pairs.map (fun kv => jsonQuote kv.1 ++ ": " ++ jsonQuote kv.2)) ++
    "\x7d"

namespace Jaeger

/-- One entry of a span's `references` list; only `refType` is read
(`ref.get("refType")`, absent key giving `None`). -/
structure SpanRef where
  refType : Option String := none
deriving DecidableEq

/-- A raw Jaeger span dictionary, as the code reads it.
`processServiceName` models `span.get("process", {}).get("serviceName", "")`
before the final default: it is `some name` when both keys are present and
`none` otherwise (a missing `process` dict and a missing `serviceName` key
are indistinguishable downstream, both yielding `""`).  `tags` and `logs`
are passed through opaquely; a missing key is conflated with its `[]`
default, which the code never distinguishes. -/
structure JSpan where
  spanID : Option String := none
  traceID : Option String := none
  operationName : Option String := none
  processServiceName : Option String := none
  startTime : Option Int := none
  duration : Option Int := none
  tags : List (String × String) := []
  logs : List String := []
  references : List SpanRef := []
deriving DecidableEq

/-- A raw Jaeger trace dictionary (`spans` and `processes` read with `[]` /
`{}` defaults, conflated with missing keys). -/
structure JTrace where
  traceID : Option String := none
  spans : List JSpan := []
  processes : List (String × String) := []
deriving DecidableEq

/-- Decoded body of `GET /api/traces/...`; `data` is `none` when the
top-level `"data"` key is absent. -/
structure JaegerTracesResponse where
  data : Option (List JTrace) := none
deriving DecidableEq

/-- Decoded body of `GET /api/services` (a list of service name strings
under `"data"`). -/
structure JaegerListResponse where
  data : Option (List String) := none
deriving DecidableEq

/-- One raw dependency edge from `GET /api/dependencies`
(`dep.get("parent")` / `dep.get("child")` / `dep.get("callCount", 0)`). -/
structure JDep where
  parent : Option String := none
  child : Option String := none
  callCount : Option Nat := none
deriving DecidableEq

/-- Decoded body of `GET /api/dependencies`. -/
structure JaegerDepsResponse where
  data : Option (List JDep) := none
deriving DecidableEq

/-- The tool's try/except boundary: a `JaegerAPIError` is re-raised
unchanged, any other exception is wrapped as
`JaegerAPIError(prefixMsg + str(exc))`. -/
def catch_wrap_jaeger {α : Type} (prefixMsg : String) :
    Except PyExc α → Except PyExc α
  | .ok a => .ok a
  | .error (.jaegerAPIError m) => .error (.jaegerAPIError m)
  | .error e => .error (.jaegerAPIError (prefixMsg ++ pyStrExc e))

/-- A `"name"`/`"retrieved_at"` entry of `get_services` (the timestamp
field is omitted, see the module comment). -/
structure ServiceEntry where
  name : String
deriving DecidableEq

/-- Body of `get_services` (jaeger.py lines 69-95): missing `"data"` key is
a `JaegerAPIError`, otherwise each service name is wrapped in an entry. -/
def get_services_body (response : JaegerListResponse) :
    Except PyExc (List ServiceEntry) :=
  match response.data with
  | none => .error (.jaegerAPIError "Invalid response format from Jaeger API")
  | some services => .ok (services.map (fun s => { name := s }))

/-- `get_services` with its exception boundary. -/
def get_services (response : JaegerListResponse) :
    Except PyExc (List ServiceEntry) :=
  catch_wrap_jaeger "Failed to get services: " (get_services_body response)

/-- One formatted span of a `get_trace` result (jaeger.py lines 140-150). -/
structure SpanRecord where
  span_id : Option String
  trace_id : Option String
  operation_name : Option String
  service_name : String
  start_time : Option Int
  duration : Option Int
  tags : List (String × String)
  logs : List String
  references : List SpanRef
deriving DecidableEq

/-- The `span_info` dict built per span inside `get_trace`. -/
def format_span (span : JSpan) : SpanRecord :=
  { span_id := span.spanID
    trace_id := span.traceID
    operation_name := span.operationName
    service_name := span.processServiceName.getD ""
    start_time := span.startTime
    duration := span.duration
    tags := span.tags
    logs := span.logs
    references := span.references }

/-- The result dict of `get_trace` (jaeger.py lines 131-136): keys
`trace_id`, `spans`, `processes` (and the omitted `retrieved_at`
timestamp).  The record has no root-span component. -/
structure TraceResult where
  trace_id : String
  spans : List SpanRecord
  processes : List (String × String)
deriving DecidableEq

/-- Body of `get_trace` (jaeger.py lines 111-151): empty trace ID and
missing `"data"` key and empty data list each raise `JaegerAPIError`;
otherwise the first trace of the list is formatted
(`trace_data[0] if isinstance(trace_data, list) else trace_data`). -/
def get_trace_body (trace_id : String) (response : JaegerTracesResponse) :
    Except PyExc TraceResult :=
  if trace_id = "" then .error (.jaegerAPIError "Trace ID is required")
  else
    match response.data with
    | none => .error (.jaegerAPIError "Invalid response format from Jaeger API")
    | some [] => .error (.jaegerAPIError ("No trace found with ID: " ++ trace_id))
    | some (traces :: _) =>
      .ok { trace_id := trace_id
            spans := traces.spans.map format_span
            processes := traces.processes }

/-- `get_trace` with its exception boundary. -/
def get_trace (trace_id : String) (response : JaegerTracesResponse) :
    Except PyExc TraceResult :=
  catch_wrap_jaeger "Failed to get trace: " (get_trace_body trace_id response)

/-- Whether a span has a `CHILD_OF` parent reference
(`any(ref.get("refType") == "CHILD_OF" for ref in references)`). -/
def has_child_of (sp : JSpan) : Bool :=
  sp.references.any (fun r => r.refType == some "CHILD_OF")

/-- The root-span summary dict built by `_find_root_span`. -/
structure RootSpan where
  operation_name : Option String
  service_name : String
  start_time : Option Int
  duration : Option Int
  tags : List (String × String)
deriving DecidableEq

/-- The root-span summary dict `_find_root_span` builds for the span it
selects. -/
def mk_root_of (sp : JSpan) : RootSpan :=
  { operation_name := sp.operationName
    service_name := sp.processServiceName.getD ""
    start_time := sp.startTime
    duration := sp.duration
    tags := sp.tags }

/-- `_find_root_span` (jaeger.py lines 351-363): first span in source
order with no `CHILD_OF` reference, summarised; `none` when every span has
a parent. -/
def find_root_span : List JSpan → Option RootSpan
  | [] => none
  | sp :: rest =>
    if has_child_of sp then find_root_span rest
    else some (mk_root_of sp)

/-- The per-trace summary dict built by `_process_trace_data`. -/
structure TraceInfo where
  trace_id : Option String
  spans_count : Nat
  duration : Int
  services : List String
  root_span : Option RootSpan
deriving DecidableEq

/-- `_process_trace_data` (jaeger.py lines 366-381).  The Python set of
service names is modelled as a first-occurrence deduplicated list (set
iteration order is unspecified; no property proved here depends on it). -/
def process_trace_data (trace : JTrace) : TraceInfo :=
  let spans := trace.spans
  { trace_id := trace.traceID
    spans_count := spans.length
    duration :=
      match spans with
      | [] => 0
      | sp :: _ => sp.duration.getD 0
    services :=
      ((spans.map (fun sp => sp.processServiceName.getD "")).filter
        (fun n => n != "")).eraseDups
    root_span := find_root_span spans }

/-- The `TraceSearchParams` dataclass (jaeger.py lines 384-394); tag values
carry the Python values the caller supplied. -/
structure TraceSearchParams where
  service : Option String := none
  operation : Option String := none
  tags : Option (List (String × PyVal)) := none
  start_time : Option String := none
  end_time : Option String := none
  limit : Int := 20
  min_duration : Option String := none
  max_duration : Option String := none
  lookback : Option String := none
deriving DecidableEq

/-- A value of the outgoing query-parameter mapping. -/
inductive ParamVal where
  | int (n : Int)
  | str (s : String)
deriving DecidableEq

/-- Conditionally extend the parameter mapping with one entry (one
`if ...: params[key] = v` line of `_build_trace_search_params`; the keys
are pairwise distinct, so dict insertion order is list append order). -/
def opt_param (cond : Bool) (key : String) (v : ParamVal)
    (params : List (String × ParamVal)) : List (String × ParamVal) :=
  if cond then params ++ [(key, v)] else params

/-- Python truthiness of the optional tags dict: `None` and `{}` falsy. -/
def tags_truthy : Option (List (String × PyVal)) → Bool
  | none => false
  | some l => !l.isEmpty

/-- The tag-stringification loop of `_build_trace_search_params` (lines
340-345): booleans become `str(v).lower()`, everything else `str(v)`. -/
def stringify_tag_value (v : PyVal) : String :=
  if is_bool_val v then ascii_lower (py_str_of_val v) else py_str_of_val v

/-- The whole stringified tag mapping. -/
def stringify_tags (ts : List (String × PyVal)) : List (String × String) :=
  ts.map (fun kv => (kv.1, stringify_tag_value kv.2))

/-- The `params["start"]` step: `datetime.fromisoformat` followed by
`int(dt.timestamp() * 1_000_000)` is abstracted as `fromisoUs`, with
`none` modelling the `ValueError` a malformed ISO string raises (it
propagates out of the builder). -/
def start_param (fromisoUs : String → Option Int) (st : Option String) :
    Except PyExc (List (String × ParamVal)) :=
  if truthyOpt st then
    match fromisoUs (st.getD "") with
    | none => .error (.valueError ("Invalid isoformat string: " ++ st.getD ""))
    | some us => .ok [("start", ParamVal.int us)]
  else .ok []

/-- The `params["end"]` step (skipped when the value is falsy or the
literal `"now"`). -/
def end_param (fromisoUs : String → Option Int) (et : Option String) :
    Except PyExc (List (String × ParamVal)) :=
  if truthyOpt et && et != some "now" then
    match fromisoUs (et.getD "") with
    | none => .error (.valueError ("Invalid isoformat string: " ++ et.getD ""))
    | some us => .ok [("end", ParamVal.int us)]
  else .ok []

/-- `_build_trace_search_params` (jaeger.py lines 313-348) up to but not
including the tags step, in source order: `limit` always, then the
optional scalar parameters, then the start/end timestamps. -/
def base_search_params (fromisoUs : String → Option Int)
    (p : TraceSearchParams) : Except PyExc (List (String × ParamVal)) :=
  let params := [("limit", ParamVal.int p.limit)]
  let params := opt_param (truthyOpt p.service) "service"
    (ParamVal.str (p.service.getD "")) params
  let params := opt_param (truthyOpt p.operation) "operation"
    (ParamVal.str (p.operation.getD "")) params
  let params := opt_param p.min_duration.isSome "minDuration"
    (ParamVal.str (p.min_duration.getD "")) params
  let params := opt_param p.max_duration.isSome "maxDuration"
    (ParamVal.str (p.max_duration.getD "")) params
  let params := opt_param (truthyOpt p.lookback) "lookback"
    (ParamVal.str (p.lookback.getD "")) params
  match start_param fromisoUs p.start_time with
  | .error e => .error e
  | .ok s1 =>
    match end_param fromisoUs p.end_time with
    | .error e => .error e
    | .ok s2 => .ok (params ++ s1 ++ s2)

/-- `_build_trace_search_params`: the base parameters followed by the tags
step, which serializes the stringified tag mapping into one JSON-text
`"tags"` parameter. -/
def build_trace_search_params (fromisoUs : String → Option Int)
    (p : TraceSearchParams) : Except PyExc (List (String × ParamVal)) :=
  match base_search_params fromisoUs p with
  | .error e => .error e
  | .ok params =>
    .ok (if tags_truthy p.tags then
      params ++ [("tags", ParamVal.str (json_dumps_str_obj
        (stringify_tags (p.tags.getD []))))]
    else params)

/-- The result dict of `search_traces` (`summary.search_time` omitted). -/
structure SearchTracesResult where
  search_parameters : TraceSearchParams
  traces : List TraceInfo
  total_found : Nat
deriving DecidableEq

/-- Body of `search_traces` (jaeger.py lines 415-449): build the query
parameters (a `ValueError` from ISO parsing propagates to the boundary),
require the `"data"` key, then format each returned trace. -/
def search_traces_body (fromisoUs : String → Option Int)
    (p : TraceSearchParams) (response : JaegerTracesResponse) :
    Except PyExc SearchTracesResult :=
  match build_trace_search_params fromisoUs p with
  | .error e => .error e
  | .ok _ =>
    match response.data with
    | none => .error (.jaegerAPIError "Invalid response format from Jaeger API")
    | some traces_data =>
      .ok { search_parameters := p
            traces := traces_data.map process_trace_data
            total_found := traces_data.length }

/-- `search_traces` with its exception boundary. -/
def search_traces (fromisoUs : String → Option Int)
    (p : TraceSearchParams) (response : JaegerTracesResponse) :
    Except PyExc SearchTracesResult :=
  catch_wrap_jaeger "Failed to search traces: "
    (search_traces_body fromisoUs p response)

/-- One formatted dependency entry (jaeger.py lines 232-239). -/
structure DepEntry where
  parent_service : Option String
  child_service : Option String
  call_count : Nat
  relationship : String
deriving DecidableEq

/-- The per-dependency dict of `analyze_service_dependencies`. -/
def dep_entry_of (d : JDep) : DepEntry :=
  { parent_service := d.parent
    child_service := d.child
    call_count := d.callCount.getD 0
    relationship := py_str_opt d.parent ++ " -> " ++ py_str_opt d.child }

/-- The service filter of `analyze_service_dependencies` (lines 205-213):
applied only when `service_name` is truthy, keeping edges whose parent or
child equals the requested name. -/
def filtered_dependencies (service_name : Option String)
    (deps : List JDep) : List JDep :=
  if truthyOpt service_name then
    deps.filter (fun d => d.parent == service_name || d.child == service_name)
  else deps

/-- The result dict of `analyze_service_dependencies` (`analysis_time`
omitted).  `unique_services` is the Python set accumulated in the loop,
modelled as a `Finset` (the code converts it to a list in unspecified
order for serialization). -/
structure DepsResult where
  service_name : Option String
  lookback_hours : Int
  dependencies : List DepEntry
  total_dependencies : Nat
  unique_services : Finset (Option String)

/-- The pure normalization of `analyze_service_dependencies` after the
`"data"` check (lines 204-248): filter, format each edge, count, and
accumulate parent and child of every kept edge into the service set. -/
def deps_result_of (service_name : Option String) (lookback_hours : Int)
    (deps0 : List JDep) : DepsResult :=
  let dependencies := filtered_dependencies service_name deps0
  { service_name := service_name
    lookback_hours := lookback_hours
    dependencies := dependencies.map dep_entry_of
    total_dependencies := dependencies.length
    unique_services :=
      dependencies.foldl (fun acc d => insert d.child (insert d.parent acc)) ∅ }

/-- Body of `analyze_service_dependencies`: missing `"data"` key is a
`JaegerAPIError`, otherwise the pure normalization above. -/
def analyze_service_dependencies_body (service_name : Option String)
    (lookback_hours : Int) (response : JaegerDepsResponse) :
    Except PyExc DepsResult :=
  match response.data with
  | none => .error (.jaegerAPIError "Invalid response format from Jaeger API")
  | some deps => .ok (deps_result_of service_name lookback_hours deps)

/-- `analyze_service_dependencies` with its exception boundary. -/
def analyze_service_dependencies (service_name : Option String)
    (lookback_hours : Int) (response : JaegerDepsResponse) :
    Except PyExc DepsResult :=
  catch_wrap_jaeger "Failed to analyze service dependencies: "
    (analyze_service_dependencies_body service_name lookback_hours response)

end Jaeger

namespace Loki

/-- A time value as `_format_time_for_loki` produces it: either an absolute
instant rendered with `strftime("%Y-%m-%dT%H:%M:%S.%fZ")` — modelled by the
instant itself, in epoch seconds (every delta the code subtracts is a whole
number of seconds, so second granularity is exact) — or the original text
passed through unchanged. -/
inductive FormattedTime where
  | rfc3339 (epochSeconds : Int)
  | raw (s : String)
deriving DecidableEq

/-- The ISO branch and the fall-through of `_format_time_for_loki`: with a
`"T"` in the string, `datetime.fromisoformat` (abstracted as `fromiso`,
`none` modelling its `ValueError`, which the except clause turns into
returning the original text) and re-rendering; otherwise the `else` clause
returns the text unchanged. -/
def format_time_tail (fromiso : String → Option Int) (s : String) :
    Option FormattedTime :=
  if s.toList.contains 'T' then
    match fromiso s with
    | none => some (.raw s)
    | some t => some (.rfc3339 t)
  else some (.raw s)

/-- `_format_time_for_loki` (loki.py lines 60-92).  A falsy input returns
`None`.  `endswith(("m", "h", "s"))` with single-character suffixes is the
last-character test; the suffix branch parses `int(time_str[:-1])` (a
`ValueError` is caught and the original text returned), computes
`now − value×unit`, and the dead `else: return None` of the unit chain is
kept as the final `none`.  `now` is the `datetime.now(UTC)` instant read
at call time, in epoch seconds. -/
def format_time_for_loki (fromiso : String → Option Int) (now : Int)
    (time_str : Option String) : Option FormattedTime :=
  match time_str with
  | none => none
  | some s =>
    if s = "" then none
    else
      match s.toList.getLast? with
      | none => none
      | some c =>
        if c == 'm' || c == 'h' || c == 's' then
          match pythonIntChars s.toList.dropLast with
          | none => some (.raw s)
          | some v =>
            if c == 's' then some (.rfc3339 (now - v))
            else if c == 'm' then some (.rfc3339 (now - v * 60))
            else if c == 'h' then some (.rfc3339 (now - v * 3600))
            else none
        else format_time_tail fromiso s

/-- A query-parameter value for the Loki API. -/
inductive LokiParam where
  | str (s : String)
  | int (n : Int)
  | time (t : FormattedTime)
deriving DecidableEq

/-- `_build_query_params` (loki.py lines 95-115): the mandatory
query/limit/direction parameters plus start/end when their formatted value
is truthy (the formatter never returns an empty string for a truthy
input, so `isSome` is that truthiness). -/
def build_query_params (fromiso : String → Option Int) (now : Int)
    (query : String) (start_time end_time : Option String) (limit : Int)
    (direction : String) : List (String × LokiParam) :=
  let params := [("query", LokiParam.str query), ("limit", LokiParam.int limit),
                 ("direction", LokiParam.str direction)]
  let params :=
    match format_time_for_loki fromiso now start_time with
    | some f => params ++ [("start", LokiParam.time f)]
    | none => params
  match format_time_for_loki fromiso now end_time with
  | some f => params ++ [("end", LokiParam.time f)]
  | none => params

/-- One raw Loki stream: its label mapping and its `(timestamp_ns, line)`
value pairs (keys read with `{}` / `[]` defaults, conflated with missing). -/
structure LokiStream where
  stream : List (String × String) := []
  values : List (String × String) := []
deriving DecidableEq

/-- The `"data"` object of a Loki query response. -/
structure LokiData where
  resultType : Option String := none
  result : Option (List LokiStream) := none
deriving DecidableEq

/-- Decoded body of `GET /loki/api/v1/query_range`; `data` is `none` when
the top-level `"data"` key is absent. -/
structure LokiResponse where
  data : Option LokiData := none
deriving DecidableEq

/-- Decoded body of the labels / label-values endpoints. -/
structure LokiListResponse where
  data : Option (List String) := none
deriving DecidableEq

/-- First-match association lookup with default: Python
`dict.get(key, default)` on a label mapping. -/
def lookupD (l : List (String × String)) (key default : String) : String :=
  match l.find? (fun kv => kv.1 == key) with
  | some kv => kv.2
  | none => default

/-- One formatted log entry (loki.py lines 138-147).  The RFC3339
`timestamp` string derived from the nanosecond value is modelled by the
parsed integer itself (`timestamp_epoch_ns`). -/
structure LogEntry where
  timestamp_epoch_ns : Int
  timestamp_ns : String
  log_line : String
  stream_labels : List (String × String)
  service_name : String
  severity_text : String
deriving DecidableEq

/-- The inner loop of `_format_log_entries` over one stream's values:
`int(timestamp_ns)` can raise `ValueError` (propagating to the tool
boundary), otherwise an entry is emitted per value in order. -/
def format_stream_values (labels : List (String × String)) :
    List (String × String) → Except PyExc (List LogEntry)
  | [] => .ok []
  | (ts, line) :: rest =>
    match pythonInt ts with
    | none =>
      .error (.valueError ("invalid literal for int() with base 10: " ++ ts))
    | some n =>
      match format_stream_values labels rest with
      | .error e => .error e
      | .ok es =>
        .ok ({ timestamp_epoch_ns := n
               timestamp_ns := ts
               log_line := line
               stream_labels := labels
               service_name := lookupD labels "service_name" ""
               severity_text := lookupD labels "severity_text" "" } :: es)

/-- `_format_log_entries` (loki.py lines 118-149): entries across all
streams in order, plus the accumulated total entry count. -/
def format_log_entries :
    List LokiStream → Except PyExc (List LogEntry × Nat)
  | [] => .ok ([], 0)
  | s :: rest =>
    match format_stream_values s.stream s.values with
    | .error e => .error e
    | .ok es =>
      match format_log_entries rest with
      | .error e => .error e
      | .ok (more, t) => .ok (es ++ more, s.values.length + t)

/-- The `summary` sub-dict of a `query_logs` result (`query_time`
omitted). -/
structure LogsSummary where
  total_entries : Nat
  streams_count : Nat
  time_range_start : Option String
  time_range_end : Option String
deriving DecidableEq

/-- The result dict of `query_logs` (loki.py lines 199-210), with the
`query_parameters` sub-dict flattened into `limit` / `direction`, and the
two keys `search_logs_by_trace_id` adds afterwards as optional fields
(absent, i.e. `none`, for a plain `query_logs` result). -/
structure LogsQueryResult where
  query : String
  result_type : String
  logs : List LogEntry
  summary : LogsSummary
  limit : Int
  direction : String
  trace_id : Option String := none
  search_type : Option String := none
deriving DecidableEq

/-- The tool's try/except boundary for Loki: a `LokiAPIError` is re-raised
unchanged, anything else wrapped as `LokiAPIError(prefixMsg + str(exc))`. -/
def catch_wrap_loki {α : Type} (prefixMsg : String) :
    Except PyExc α → Except PyExc α
  | .ok a => .ok a
  | .error (.lokiAPIError m) => .error (.lokiAPIError m)
  | .error e => .error (.lokiAPIError (prefixMsg ++ pyStrExc e))

/-- Body of `query_logs` (loki.py lines 177-210): empty query fails fast;
the query parameters are built (feeding the HTTP request, which the
embedding abstracts — see `build_query_params`); a response without the
`"data"` key is a `LokiAPIError`; otherwise the streams are formatted. -/
def query_logs_body (response : LokiResponse) (query : String)
    (start_time end_time : Option String) (limit : Int) (direction : String) :
    Except PyExc LogsQueryResult :=
  if query = "" then .error (.lokiAPIError "Query is required")
  else
    match response.data with
    | none => .error (.lokiAPIError "Invalid response format from Loki API")
    | some data =>
      let results := data.result.getD []
      match format_log_entries results with
      | .error e => .error e
      | .ok (logs, total) =>
        .ok { query := query
              result_type := data.resultType.getD ""
              logs := logs
              summary := { total_entries := total
                           streams_count := results.length
                           time_range_start := start_time
                           time_range_end := end_time }
              limit := limit
              direction := direction }

/-- `query_logs` with its exception boundary. -/
def query_logs (response : LokiResponse) (query : String)
    (start_time end_time : Option String) (limit : Int) (direction : String) :
    Except PyExc LogsQueryResult :=
  catch_wrap_loki "Failed to query logs: "
    (query_logs_body response query start_time end_time limit direction)

/-- Body of `get_log_labels` (loki.py lines 234-249). -/
def get_log_labels_body (response : LokiListResponse) :
    Except PyExc (List String × Nat) :=
  match response.data with
  | none => .error (.lokiAPIError "Invalid response format from Loki API")
  | some labels => .ok (labels, labels.length)

/-- `get_log_labels` with its exception boundary. -/
def get_log_labels (response : LokiListResponse) :
    Except PyExc (List String × Nat) :=
  catch_wrap_loki "Failed to get labels: " (get_log_labels_body response)

/-- Body of `search_logs_by_trace_id` (loki.py lines 329-354): validate
trace ID and label, build the LogQL query
`{label} | json | trace_id="..."`, default a falsy start time to `"1h"`,
and delegate to `query_logs` — a single underlying call whose
`LokiAPIError` propagates; the trace metadata keys are added on success. -/
def search_logs_by_trace_id_body (response : LokiResponse)
    (trace_id label : String) (start_time end_time : Option String)
    (limit : Int) : Except PyExc LogsQueryResult :=
  if trace_id = "" then .error (.lokiAPIError "Trace ID is required")
  else if label = "" then .error (.lokiAPIError "Label is required")
  else
    let query :=
      "\x7b" ++ label ++ "\x7d | json | trace_id=\"" ++ trace_id ++ "\""
    let search_start_time :=
      if truthyOpt start_time then start_time else some "1h"
    match query_logs response query search_start_time end_time limit
        "backward" with
    | .error e => .error e
    | .ok r =>
      .ok { r with trace_id := some trace_id
                   search_type := some "trace_correlation" }

/-- `search_logs_by_trace_id` with its exception boundary. -/
def search_logs_by_trace_id (response : LokiResponse)
    (trace_id label : String) (start_time end_time : Option String)
    (limit : Int) : Except PyExc LogsQueryResult :=
  catch_wrap_loki "Failed to search logs by trace ID: "
    (search_logs_by_trace_id_body response trace_id label start_time
      end_time limit)

end Loki

namespace Prometheus

/-- The `"data"` object of a Prometheus query response; the samples of its
`result` vector are passed through opaquely (raw sample values). -/
structure PromData where
  resultType : Option String := none
  result : List String := []
deriving DecidableEq

/-- Decoded body of `GET /api/v1/query` or `/api/v1/query_range`; `data`
is `none` when the top-level `"data"` key is absent. -/
structure PromResponse where
  status : Option String := none
  data : Option PromData := none
  error : Option String := none
  warnings : Option (List String) := none
deriving DecidableEq

/-- `metric_info` entries of the metadata endpoint. -/
structure MetricInfo where
  type : Option String := none
  help : Option String := none
  unit : Option String := none
deriving DecidableEq

/-- Decoded body of `GET /api/v1/metadata`. -/
structure PromMetadataResponse where
  status : Option String := none
  data : Option (List (String × List MetricInfo)) := none
  error : Option String := none
deriving DecidableEq

/-- Decoded body of the labels / label-values / series endpoints (list of
strings under `"data"`; series selel sample dicts modelled opaquely as
strings). -/
structure PromListResponse where
  status : Option String := none
  data : Option (List String) := none
  error : Option String := none
deriving DecidableEq

/-- The tool's try/except boundary for Prometheus: a `PrometheusAPIError`
is re-raised unchanged, anything else wrapped as
`PrometheusAPIError(prefixMsg + str(exc))`. -/
def catch_wrap_prometheus {α : Type} (prefixMsg : String) :
    Except PyExc α → Except PyExc α
  | .ok a => .ok a
  | .error (.prometheusAPIError m) => .error (.prometheusAPIError m)
  | .error e => .error (.prometheusAPIError (prefixMsg ++ pyStrExc e))

/-- The result dict of `query_prometheus` (`executed_at` omitted). -/
structure QPResult where
  query : String
  status : String
  data : PromData
  warnings : Option (List String) := none
deriving DecidableEq

/-- Body of `query_prometheus` (prometheus.py lines 122-148): empty query
fails fast; a `status` other than `"success"` raises `PrometheusAPIError`
with the backend's `error` text (`"Unknown error"` default); then
`response["data"]` raises `KeyError('data')` when the key is absent (the
generic except clause at the boundary wraps it). -/
def query_prometheus_body (query : String) (response : PromResponse) :
    Except PyExc QPResult :=
  if query = "" then .error (.prometheusAPIError "Query is required")
  else if response.status ≠ some "success" then
    .error (.prometheusAPIError
      ("Prometheus query failed: " ++ response.error.getD "Unknown error"))
  else
    match response.data with
    | none => .error (.keyError "data")
    | some d =>
      .ok { query := query, status := "success", data := d,
            warnings := response.warnings }

/-- `query_prometheus` with its exception boundary. -/
def query_prometheus (query : String) (response : PromResponse) :
    Except PyExc QPResult :=
  catch_wrap_prometheus "Failed to execute query: "
    (query_prometheus_body query response)

/-- The result dict of `query_range_prometheus` (`executed_at` omitted). -/
structure QRResult where
  query : String
  start : String
  stop : String
  step : String
  status : String
  data : PromData
  warnings : Option (List String) := none
deriving DecidableEq

/-- Body of `query_range_prometheus` (prometheus.py lines 185-221); `stop`
models the Python parameter `end`. -/
def query_range_prometheus_body (query start stop step : String)
    (response : PromResponse) : Except PyExc QRResult :=
  if query = "" then .error (.prometheusAPIError "Query is required")
  else if start = "" then .error (.prometheusAPIError "Start time is required")
  else if stop = "" then .error (.prometheusAPIError "End time is required")
  else if response.status ≠ some "success" then
    .error (.prometheusAPIError
      ("Prometheus range query failed: " ++ response.error.getD "Unknown error"))
  else
    match response.data with
    | none => .error (.keyError "data")
    | some d =>
      .ok { query := query, start := start, stop := stop, step := step,
            status := "success", data := d, warnings := response.warnings }

/-- `query_range_prometheus` with its exception boundary. -/
def query_range_prometheus (query start stop step : String)
    (response : PromResponse) : Except PyExc QRResult :=
  catch_wrap_prometheus "Failed to execute range query: "
    (query_range_prometheus_body query start stop step response)

/-- One formatted metadata entry (prometheus.py lines 271-275). -/
structure MetricMeta where
  type : String
  help : String
  unit : String
deriving DecidableEq

/-- The metadata-processing loop (lines 267-275): per metric, the first
info entry when the list is nonempty, otherwise the metric is skipped. -/
def processMetadata (metadata : List (String × List MetricInfo)) :
    List (String × MetricMeta) :=
  metadata.filterMap (fun kv =>
    match kv.2 with
    | [] => none
    | info :: _ =>
      some (kv.1, { type := info.type.getD "unknown",
                    help := info.help.getD "", unit := info.unit.getD "" }))

/-- The result dict of `get_metrics_metadata` (`retrieved_at` omitted). -/
structure MetadataResult where
  total_metrics : Nat
  metrics : List (String × MetricMeta)
deriving DecidableEq

/-- Body of `get_metrics_metadata` (prometheus.py lines 247-275). -/
def get_metrics_metadata_body (response : PromMetadataResponse) :
    Except PyExc MetadataResult :=
  if response.status ≠ some "success" then
    .error (.prometheusAPIError
      ("Failed to get metadata: " ++ response.error.getD "Unknown error"))
  else
    match response.data with
    | none => .error (.keyError "data")
    | some metadata =>
      .ok { total_metrics := metadata.length,
            metrics := processMetadata metadata }

/-- `get_metrics_metadata` with its exception boundary. -/
def get_metrics_metadata (response : PromMetadataResponse) :
    Except PyExc MetadataResult :=
  catch_wrap_prometheus "Failed to get metrics metadata: "
    (get_metrics_metadata_body response)

/-- Body of `get_label_names` (prometheus.py lines 299-313): the label
list and its count. -/
def get_label_names_body (response : PromListResponse) :
    Except PyExc (List String × Nat) :=
  if response.status ≠ some "success" then
    .error (.prometheusAPIError
      ("Failed to get label names: " ++ response.error.getD "Unknown error"))
  else
    match response.data with
    | none => .error (.keyError "data")
    | some labels => .ok (labels, labels.length)

/-- `get_label_names` with its exception boundary. -/
def get_label_names (response : PromListResponse) :
    Except PyExc (List String × Nat) :=
  catch_wrap_prometheus "Failed to get label names: "
    (get_label_names_body response)

/-- Body of `get_label_values` (prometheus.py lines 338-356): the label
name, its values and their count. -/
def get_label_values_body (label_name : String)
    (response : PromListResponse) :
    Except PyExc (String × List String × Nat) :=
  if label_name = "" then
    .error (.prometheusAPIError "Label name is required")
  else if response.status ≠ some "success" then
    .error (.prometheusAPIError
      ("Failed to get label values: " ++ response.error.getD "Unknown error"))
  else
    match response.data with
    | none => .error (.keyError "data")
    | some values => .ok (label_name, values, values.length)

/-- `get_label_values` with its exception boundary. -/
def get_label_values (label_name : String) (response : PromListResponse) :
    Except PyExc (String × List String × Nat) :=
  catch_wrap_prometheus "Failed to get label values: "
    (get_label_values_body label_name response)

/-- Body of `get_series` (prometheus.py lines 389-425); the request-side
`match[]` parameter assembly feeds the HTTP call, which the embedding
abstracts. -/
def get_series_body (matchSelectors : List String)
    (response : PromListResponse) : Except PyExc (List String × Nat) :=
  if matchSelectors = [] then
    .error (.prometheusAPIError "At least one match selector is required")
  else if response.status ≠ some "success" then
    .error (.prometheusAPIError
      ("Failed to find series: " ++ response.error.getD "Unknown error"))
  else
    match response.data with
    | none => .error (.keyError "data")
    | some series => .ok (series, series.length)

/-- `get_series` with its exception boundary. -/
def get_series (matchSelectors : List String)
    (response : PromListResponse) : Except PyExc (List String × Nat) :=
  catch_wrap_prometheus "Failed to find series: "
    (get_series_body matchSelectors response)

/-- The `{service_name="..."}` label filter interpolated into the PromQL
templates (empty when no service is given). -/
def service_filter (service_name : Option String) : String :=
  if truthyOpt service_name then
    "\x7bservice_name=\"" ++ service_name.getD "" ++ "\"\x7d"
  else ""

/-- The 8 fixed metric-name/PromQL-template pairs of
`analyze_http_metrics` (prometheus.py lines 460-469), in source order. -/
def http_queries (service_name : Option String) (time_range : String) :
    List (String × String) :=
  let f := service_filter service_name
  [("request_rate",
    "rate(http_server_duration_milliseconds_count" ++ f ++ "[" ++
      time_range ++ "])"),
   ("avg_response_time",
    "rate(http_server_duration_milliseconds_sum" ++ f ++ "[" ++ time_range ++
      "]) / rate(http_server_duration_milliseconds_count" ++ f ++ "[" ++
      time_range ++ "])"),
   ("p95_response_time",
    "histogram_quantile(0.95, rate(http_server_duration_milliseconds_bucket" ++
      f ++ "[" ++ time_range ++ "]))"),
   ("p99_response_time",
    "histogram_quantile(0.99, rate(http_server_duration_milliseconds_bucket" ++
      f ++ "[" ++ time_range ++ "]))"),
   ("error_rate",
    "rate(http_server_duration_milliseconds_count" ++ f ++
      "\x7bhttp_response_status_code=~\"5..\"\x7d[" ++ time_range ++ "])"),
   ("client_error_rate",
    "rate(http_server_duration_milliseconds_count" ++ f ++
      "\x7bhttp_response_status_code=~\"4..\"\x7d[" ++ time_range ++ "])"),
   ("active_requests", "http_server_active_requests" ++ f),
   ("avg_response_size",
    "rate(http_server_response_size_bytes_sum" ++ f ++ "[" ++ time_range ++
      "]) / rate(http_server_response_size_bytes_count" ++ f ++ "[" ++
      time_range ++ "])")]

/-- One per-metric entry of the composite result: either the sub-query's
data and status, or (on a caught `PrometheusAPIError`) an error message
with status `"error"` and no data key. -/
structure MetricEntry where
  query : String
  data : Option PromData
  status : String
  error : Option String
deriving DecidableEq

/-- `_execute_single_query` (prometheus.py lines 37-52): calls
`query_prometheus` on the backend's response for that query; only a
`PrometheusAPIError` is caught and turned into an error entry — any other
exception would propagate (the wrapper makes that branch unreachable, see
`query_prometheus_error_kind`). -/
def execute_single_query (backend : String → PromResponse)
    (query _metric_name : String) : Except PyExc MetricEntry :=
  match query_prometheus query (backend query) with
  | .ok r =>
    .ok { query := query, data := some r.data, status := r.status,
          error := none }
  | .error (.prometheusAPIError m) =>
    .ok { query := query, data := none, status := "error", error := some m }
  | .error e => .error e

/-- The value `_execute_single_query` always returns (its catch makes it
total over the wrapper's error taxonomy). -/
def metric_entry_of (backend : String → PromResponse) (query : String) :
    MetricEntry :=
  match query_prometheus query (backend query) with
  | .ok r =>
    { query := query, data := some r.data, status := r.status, error := none }
  | .error e =>
    { query := query, data := none, status := "error",
      error := some (pyStrExc e) }

/-- The sequential sub-query loop of `analyze_http_metrics` (lines
479-481), threading the per-item results in order. -/
def run_metric_queries (backend : String → PromResponse) :
    List (String × String) → Except PyExc (List (String × MetricEntry))
  | [] => .ok []
  | nq :: rest =>
    match execute_single_query backend nq.2 nq.1 with
    | .error e => .error e
    | .ok entry =>
      match run_metric_queries backend rest with
      | .error e => .error e
      | .ok more => .ok ((nq.1, entry) :: more)

/-- The result dict of `analyze_http_metrics` (`analysis_time` omitted);
the `metrics` dict has the 8 distinct metric names as keys, in insertion
order. -/
structure HttpMetricsResult where
  service_name : Option String
  time_range : String
  metrics : List (String × MetricEntry)
deriving DecidableEq

/-- Body of `analyze_http_metrics` (prometheus.py lines 454-481). -/
def analyze_http_metrics_body (backend : String → PromResponse)
    (service_name : Option String) (time_range : String) :
    Except PyExc HttpMetricsResult :=
  match run_metric_queries backend (http_queries service_name time_range) with
  | .error e => .error e
  | .ok metrics =>
    .ok { service_name := service_name, time_range := time_range,
          metrics := metrics }

/-- `analyze_http_metrics` with its exception boundary. -/
def analyze_http_metrics (backend : String → PromResponse)
    (service_name : Option String) (time_range : String) :
    Except PyExc HttpMetricsResult :=
  catch_wrap_prometheus "Failed to analyze HTTP metrics: "
    (analyze_http_metrics_body backend service_name time_range)

/-- The value `analyze_http_metrics` always returns. -/
def analyze_http_value (backend : String → PromResponse)
    (service_name : Option String) (time_range : String) : HttpMetricsResult :=
  { service_name := service_name
    time_range := time_range
    metrics := (http_queries service_name time_range).map
      (fun nq => (nq.1, metric_entry_of backend nq.2)) }

/-- One alert-threshold configuration (query/description/severity). -/
structure AlertConfig where
  query : String
  description : String
  severity : String
deriving DecidableEq

/-- The 5 fixed alert-threshold checks of `check_alerting_thresholds`
(prometheus.py lines 514-540), in source order. -/
def alert_queries (service_name : Option String) :
    List (String × AlertConfig) :=
  let f := service_filter service_name
  [("high_error_rate",
    { query := "rate(http_server_duration_milliseconds_count" ++ f ++
        "\x7bhttp_response_status_code=~\"5..\"\x7d[5m]) > 0.05",
      description := "Error rate > 5%", severity := "critical" }),
   ("high_response_time",
    { query :=
        "histogram_quantile(0.95, rate(http_server_duration_milliseconds_bucket" ++
          f ++ "[5m])) > 1000",
      description := "95th percentile response time > 1000ms",
      severity := "warning" }),
   ("high_active_requests",
    { query := "http_server_active_requests" ++ f ++ " > 100",
      description := "Active requests > 100", severity := "warning" }),
   ("low_request_rate",
    { query := "rate(http_server_duration_milliseconds_count" ++ f ++
        "[5m]) < 0.1",
      description := "Request rate < 0.1 req/sec (possible service down)",
      severity := "critical" }),
   ("high_client_error_rate",
    { query := "rate(http_client_duration_milliseconds_count" ++ f ++
        "\x7bhttp_response_status_code=~\"4..\"\x7d[5m]) > 0.1",
      description := "Client error rate > 10%", severity := "warning" })]

/-- One per-alert entry of the composite result: firing status derived
from a nonempty result vector, or (on a caught `PrometheusAPIError`) an
error message with `firing: False`. -/
structure AlertEntry where
  query : String
  description : String
  severity : String
  firing : Bool
  data : Option PromData
  error : Option String
deriving DecidableEq

/-- `_execute_alert_query` (prometheus.py lines 55-80): the alert fires
when the query's result vector is nonempty; only a `PrometheusAPIError`
is caught, yielding an error entry with `firing: False`. -/
def execute_alert_query (backend : String → PromResponse)
    (_alert_name : String) (cfg : AlertConfig) : Except PyExc AlertEntry :=
  match query_prometheus cfg.query (backend cfg.query) with
  | .ok r =>
    let is_firing := !r.data.result.isEmpty
    .ok { query := cfg.query, description := cfg.description,
          severity := cfg.severity, firing := is_firing,
          data := if is_firing then some r.data else none, error := none }
  | .error (.prometheusAPIError m) =>
    .ok { query := cfg.query, description := cfg.description,
          severity := cfg.severity, firing := false, data := none,
          error := some m }
  | .error e => .error e

/-- The value `_execute_alert_query` always returns. -/
def alert_entry_of (backend : String → PromResponse) (cfg : AlertConfig) :
    AlertEntry :=
  match query_prometheus cfg.query (backend cfg.query) with
  | .ok r =>
    let is_firing := !r.data.result.isEmpty
    { query := cfg.query, description := cfg.description,
      severity := cfg.severity, firing := is_firing,
      data := if is_firing then some r.data else none, error := none }
  | .error e =>
    { query := cfg.query, description := cfg.description,
      severity := cfg.severity, firing := false, data := none,
      error := some (pyStrExc e) }

/-- The sequential loop of `check_alerting_thresholds` (lines 555-564),
collecting the per-alert entries and the three summary counters (the
Python loop increments as it goes; the recursion accumulates the same
counts, addition being order-independent).  A firing alert increments
`critical_alerts` when its configured severity is `"critical"`, else
`warning_alerts` when it is `"warning"`. -/
def check_alerting_loop (backend : String → PromResponse) :
    List (String × AlertConfig) →
    Except PyExc (List (String × AlertEntry) × Nat × Nat × Nat)
  | [] => .ok ([], 0, 0, 0)
  | nc :: rest =>
    match execute_alert_query backend nc.1 nc.2 with
    | .error e => .error e
    | .ok ar =>
      match check_alerting_loop backend rest with
      | .error e => .error e
      | .ok (alerts, f, c, w) =>
        .ok ((nc.1, ar) :: alerts,
             (if ar.firing then f + 1 else f),
             (if ar.firing && nc.2.severity == "critical" then c + 1 else c),
             (if ar.firing && !(nc.2.severity == "critical") &&
                 nc.2.severity == "warning" then w + 1 else w))

/-- The `summary` sub-dict of a `check_alerting_thresholds` result. -/
structure AlertSummary where
  total_checks : Nat
  firing_alerts : Nat
  critical_alerts : Nat
  warning_alerts : Nat
deriving DecidableEq

/-- The result dict of `check_alerting_thresholds` (`check_time`
omitted). -/
structure AlertCheckResult where
  service_name : Option String
  alerts : List (String × AlertEntry)
  summary : AlertSummary
deriving DecidableEq

/-- Body of `check_alerting_thresholds` (prometheus.py lines 508-564). -/
def check_alerting_thresholds_body (backend : String → PromResponse)
    (service_name : Option String) : Except PyExc AlertCheckResult :=
  match check_alerting_loop backend (alert_queries service_name) with
  | .error e => .error e
  | .ok (alerts, f, c, w) =>
    .ok { service_name := service_name
          alerts := alerts
          summary := { total_checks := (alert_queries service_name).length
                       firing_alerts := f
                       critical_alerts := c
                       warning_alerts := w } }

/-- `check_alerting_thresholds` with its exception boundary. -/
def check_alerting_thresholds (backend : String → PromResponse)
    (service_name : Option String) : Except PyExc AlertCheckResult :=
  catch_wrap_prometheus "Failed to check alerting thresholds: "
    (check_alerting_thresholds_body backend service_name)

end Prometheus

/-! ### Derived definitions used to state the properties -/

/-- The operation/service identity of a root-span summary. -/
def root_identity (r : Jaeger.RootSpan) : Option String × String :=
  (r.operation_name, r.service_name)

/-- The duration `search_traces` reports for a trace, as the spec reads:
the first span's duration in source order, `0` for an empty trace or a
first span without a duration. -/
def first_span_duration (t : Jaeger.JTrace) : Int :=
  match t.spans with
  | [] => 0
  | sp :: _ => sp.duration.getD 0

/-- Whether an outgoing parameter entry is the `"tags"` parameter. -/
def is_tags_kv (kv : String × Jaeger.ParamVal) : Bool :=
  kv.1 == "tags"

/-- Whether a call outcome is a raised exception. -/
def except_is_error {α : Type} : Except PyExc α → Bool
  | .ok _ => false
  | .error _ => true

/-- The `query_prometheus` outcome per sub-query of a composite call. -/
def prom_outcomes (backend : String → Prometheus.PromResponse)
    (qs : List (String × String)) : List (Except PyExc Prometheus.QPResult) :=
  qs.map (fun nq => Prometheus.query_prometheus nq.2 (backend nq.2))

/-- Whether a metrics-map entry carries an `error` field. -/
def entry_has_error (e : String × Prometheus.MetricEntry) : Bool :=
  e.2.error.isSome

/-- Whether a metrics-map entry carries a `data` field. -/
def entry_has_data (e : String × Prometheus.MetricEntry) : Bool :=
  e.2.data.isSome

/-- A metrics-map entry agrees with its own sub-query's outcome: the
sub-query's data and status on success, the failure message and status
`"error"` on a caught backend error. -/
def metric_entry_consistent (backend : String → Prometheus.PromResponse)
    (e : String × Prometheus.MetricEntry) : Bool :=
  match Prometheus.query_prometheus e.2.query (backend e.2.query) with
  | .ok r =>
    e.2.error == none && e.2.data == some r.data && e.2.status == r.status
  | .error x =>
    e.2.error == some (pyStrExc x) && e.2.data == none &&
      e.2.status == "error"

/-- A metrics-map entry is a well-formed partial result: either data with
no error field, or an error message with status `"error"` and no data. -/
def entry_part_ok (e : String × Prometheus.MetricEntry) : Bool :=
  (e.2.data.isSome && e.2.error == none) ||
    (e.2.error.isSome && e.2.data == none && e.2.status == "error")

/-- Whether an alert entry is firing. -/
def alert_is_firing (a : String × Prometheus.AlertEntry) : Bool :=
  a.2.firing

/-- An alert entry that carries an error yet counts as firing (the
invariant says this never happens). -/
def alert_error_firing (a : String × Prometheus.AlertEntry) : Bool :=
  a.2.error.isSome && a.2.firing

/-- An alert entry is a well-formed partial result: either no error field,
or an error recorded with `firing: False`. -/
def alert_part_ok (a : String × Prometheus.AlertEntry) : Bool :=
  a.2.error == none || (a.2.error.isSome && a.2.firing == false)

/-- The per-alert entries `check_alerting_thresholds` collects, in order. -/
def alert_entries_of (backend : String → Prometheus.PromResponse)
    (l : List (String × Prometheus.AlertConfig)) :
    List (String × Prometheus.AlertEntry) :=
  l.map (fun nc => (nc.1, Prometheus.alert_entry_of backend nc.2))

/-- The `firing_alerts` counter the loop accumulates. -/
def firing_count (backend : String → Prometheus.PromResponse)
    (l : List (String × Prometheus.AlertConfig)) : Nat :=
  l.countP (fun nc => (Prometheus.alert_entry_of backend nc.2).firing)

/-- The `critical_alerts` counter the loop accumulates. -/
def critical_count (backend : String → Prometheus.PromResponse)
    (l : List (String × Prometheus.AlertConfig)) : Nat :=
  l.countP (fun nc => (Prometheus.alert_entry_of backend nc.2).firing &&
    nc.2.severity == "critical")

/-- The `warning_alerts` counter the loop accumulates. -/
def warning_count (backend : String → Prometheus.PromResponse)
    (l : List (String × Prometheus.AlertConfig)) : Nat :=
  l.countP (fun nc => (Prometheus.alert_entry_of backend nc.2).firing &&
    !(nc.2.severity == "critical") && nc.2.severity == "warning")

/-- The value `check_alerting_thresholds` always returns. -/
def check_alerting_value (backend : String → Prometheus.PromResponse)
    (service_name : Option String) : Prometheus.AlertCheckResult :=
  { service_name := service_name
    alerts := alert_entries_of backend (Prometheus.alert_queries service_name)
    summary :=
      { total_checks := (Prometheus.alert_queries service_name).length
        firing_alerts := firing_count backend (Prometheus.alert_queries service_name)
        critical_alerts := critical_count backend (Prometheus.alert_queries service_name)
        warning_alerts := warning_count backend (Prometheus.alert_queries service_name) } }

/-- Seconds per relative-time unit of `_format_time_for_loki`. -/
def unitSeconds (u : Char) : Int :=
  if u == 's' then 1 else if u == 'm' then 60 else 3600

/-- An ISO parser that fails on every input (a stand-in used on inputs
whose ISO branch is irrelevant). -/
def no_iso : String → Option Int :=
  fun _ => none

/-! ### Concrete inputs used by counterexamples and witnesses -/

/-- A span with a `CHILD_OF` parent reference. -/
def c1span1 : Jaeger.JSpan :=
  { spanID := some "s1", operationName := some "op1",
    processServiceName := some "svc1", duration := some 10,
    references := [{ refType := some "CHILD_OF" }] }

/-- The parentless span of the three-span demo trace. -/
def c1span2 : Jaeger.JSpan :=
  { spanID := some "s2", operationName := some "op2",
    processServiceName := some "svc2", duration := some 90 }

/-- Another child span. -/
def c1span3 : Jaeger.JSpan :=
  { spanID := some "s3", operationName := some "op3",
    processServiceName := some "svc3", duration := some 20,
    references := [{ refType := some "CHILD_OF" }] }

/-- A trace with 3 spans, exactly one of which (the second) has no
`CHILD_OF` parent reference. -/
def c1trace : Jaeger.JTrace :=
  { traceID := some "abc123", spans := [c1span1, c1span2, c1span3] }

/-- A Jaeger response whose data contains exactly that one trace. -/
def c1resp : Jaeger.JaegerTracesResponse :=
  { data := some [c1trace] }

/-- A two-span trace whose first span (duration 5) is a child and whose
root span (the second, duration 50) has the larger duration, separating
"first span's duration" from both "root span's duration" and "maximum
duration". -/
def demo9 : Jaeger.JTrace :=
  { traceID := some "t9",
    spans :=
      [{ spanID := some "a", duration := some 5,
         references := [{ refType := some "CHILD_OF" }] },
       { spanID := some "b", duration := some 50 }] }

/-- Default search parameters (every optional field absent). -/
def p0 : Jaeger.TraceSearchParams := {}

/-- The search result for `demo9` under default parameters. -/
def demo9Result : Jaeger.SearchTracesResult :=
  { search_parameters := p0
    traces := [Jaeger.process_trace_data demo9]
    total_found := 1 }

/-- Search parameters whose only filter is a boolean-valued tag. -/
def p8 : Jaeger.TraceSearchParams :=
  { tags := some [("error", PyVal.pyBool true)] }

/-- A sample dependency list for the dependency-filter witness. -/
def demoDeps : List Jaeger.JDep :=
  [{ parent := some "a", child := some "b", callCount := some 3 },
   { parent := some "c", child := some "d" },
   { parent := some "d", child := some "a", callCount := some 7 }]

/-- A Loki response body without the top-level `"data"` key. -/
def lokiNoData : Loki.LokiResponse := {}

/-- A Jaeger services response body without the top-level `"data"` key. -/
def jaegerNoData : Jaeger.JaegerListResponse := {}

/-- A Prometheus response with `status: "success"` but no `"data"` key. -/
def promNoData : Prometheus.PromResponse :=
  { status := some "success" }

/-- A successful Prometheus response with an empty result vector. -/
def promOkEmpty : Prometheus.PromResponse :=
  { status := some "success", data := some {} }

/-- A Prometheus response reporting a backend error. -/
def promBadStatus : Prometheus.PromResponse :=
  { status := some "error", error := some "boom" }

/-- A metadata response reporting a backend error. -/
def promMetaBadStatus : Prometheus.PromMetadataResponse :=
  { status := some "error", error := some "boom" }

/-- A labels/series response reporting a backend error. -/
def promListBadStatus : Prometheus.PromListResponse :=
  { status := some "error", error := some "boom" }

/-- A backend for which every query succeeds with an empty result. -/
def backendAllOk : String → Prometheus.PromResponse :=
  fun _ => promOkEmpty

/-- A backend for which exactly the `active_requests` sub-query of the
`"checkout"` analysis fails and every other query succeeds. -/
def backendOneFail : String → Prometheus.PromResponse :=
  fun q =>
    if q = "http_server_active_requests\x7bservice_name=\"checkout\"\x7d" then
      promBadStatus
    else promOkEmpty

/-! ### Helper lemmas -/

theorem catch_wrap_jaeger_ok {α : Type} (pre : String) (x : Except PyExc α)
    (a : α) : Jaeger.catch_wrap_jaeger pre x = .ok a ↔ x = .ok a := by
  cases x with
  | ok b => simp [Jaeger.catch_wrap_jaeger]
  | error e => cases e <;> simp [Jaeger.catch_wrap_jaeger]

theorem catch_wrap_loki_ok {α : Type} (pre : String) (x : Except PyExc α)
    (a : α) : Loki.catch_wrap_loki pre x = .ok a ↔ x = .ok a := by
  cases x with
  | ok b => simp [Loki.catch_wrap_loki]
  | error e => cases e <;> simp [Loki.catch_wrap_loki]

theorem catch_wrap_prometheus_ok {α : Type} (pre : String)
    (x : Except PyExc α) (a : α) :
    Prometheus.catch_wrap_prometheus pre x = .ok a ↔ x = .ok a := by
  cases x with
  | ok b => simp [Prometheus.catch_wrap_prometheus]
  | error e => cases e <;> simp [Prometheus.catch_wrap_prometheus]

theorem catch_wrap_prometheus_error_kind {α : Type} (pre : String)
    (x : Except PyExc α) (e : PyExc)
    (h : Prometheus.catch_wrap_prometheus pre x = .error e) :
    ∃ m, e = PyExc.prometheusAPIError m := by
  cases x with
  | ok b => simp [Prometheus.catch_wrap_prometheus] at h
  | error e' =>
    cases e' <;> simp [Prometheus.catch_wrap_prometheus] at h <;>
      exact ⟨_, h.symm⟩

theorem query_prometheus_error_kind (q : String)
    (resp : Prometheus.PromResponse) (e : PyExc)
    (h : Prometheus.query_prometheus q resp = .error e) :
    ∃ m, e = PyExc.prometheusAPIError m :=
  catch_wrap_prometheus_error_kind _ _ _ h

theorem execute_single_query_ok (backend : String → Prometheus.PromResponse)
    (q n : String) :
    Prometheus.execute_single_query backend q n =
      .ok (Prometheus.metric_entry_of backend q) := by
  unfold Prometheus.execute_single_query Prometheus.metric_entry_of
  cases h : Prometheus.query_prometheus q (backend q) with
  | ok r => rfl
  | error e =>
    obtain ⟨m, rfl⟩ := query_prometheus_error_kind q (backend q) e h
    rfl

theorem run_metric_queries_eq (backend : String → Prometheus.PromResponse) :
    ∀ l, Prometheus.run_metric_queries backend l =
      .ok (l.map (fun nq => (nq.1, Prometheus.metric_entry_of backend nq.2)))
  | [] => rfl
  | nq :: rest => by
    rw [Prometheus.run_metric_queries, execute_single_query_ok,
      run_metric_queries_eq backend rest]
    rfl

theorem analyze_http_metrics_eq (backend : String → Prometheus.PromResponse)
    (sn : Option String) (tr : String) :
    Prometheus.analyze_http_metrics backend sn tr =
      .ok (Prometheus.analyze_http_value backend sn tr) := by
  unfold Prometheus.analyze_http_metrics Prometheus.analyze_http_metrics_body
  rw [run_metric_queries_eq]
  rfl

theorem execute_alert_query_ok (backend : String → Prometheus.PromResponse)
    (n : String) (cfg : Prometheus.AlertConfig) :
    Prometheus.execute_alert_query backend n cfg =
      .ok (Prometheus.alert_entry_of backend cfg) := by
  unfold Prometheus.execute_alert_query Prometheus.alert_entry_of
  cases h : Prometheus.query_prometheus cfg.query (backend cfg.query) with
  | ok r => rfl
  | error e =>
    obtain ⟨m, rfl⟩ := query_prometheus_error_kind _ _ e h
    rfl

theorem check_alerting_loop_eq (backend : String → Prometheus.PromResponse) :
    ∀ l, Prometheus.check_alerting_loop backend l =
      .ok (alert_entries_of backend l, firing_count backend l,
        critical_count backend l, warning_count backend l)
  | [] => rfl
  | nc :: rest => by
    rw [Prometheus.check_alerting_loop, execute_alert_query_ok,
      check_alerting_loop_eq backend rest]
    simp only [alert_entries_of, firing_count, critical_count, warning_count,
      List.map_cons, List.countP_cons]
    by_cases hf : (Prometheus.alert_entry_of backend nc.2).firing <;>
      simp [hf, Nat.add_comm] <;>
      constructor <;> split_ifs <;> omega

theorem check_alerting_thresholds_eq
    (backend : String → Prometheus.PromResponse) (sn : Option String) :
    Prometheus.check_alerting_thresholds backend sn =
      .ok (check_alerting_value backend sn) := by
  unfold Prometheus.check_alerting_thresholds
    Prometheus.check_alerting_thresholds_body
  rw [check_alerting_loop_eq]
  rfl

theorem pyIsSpace_of_digit (c : Char) (h : c.isDigit = true) :
    pyIsSpace c = false := by
  by_contra hb
  rw [Bool.not_eq_false] at hb
  unfold pyIsSpace at hb
  simp only [Bool.or_eq_true, beq_iff_eq] at hb
  rcases hb with ((((hc | hc) | hc) | hc) | hc) | hc <;> subst hc <;>
    exact absurd h (by decide)

theorem dropWhile_pyIsSpace_digits (cs : List Char)
    (h : ∀ c ∈ cs, c.isDigit = true) : cs.dropWhile pyIsSpace = cs := by
  cases cs with
  | nil => rfl
  | cons c rest =>
    have hc := pyIsSpace_of_digit c (h c (List.mem_cons_self c rest))
    simp [List.dropWhile_cons, hc]

theorem stripChars_digits (cs : List Char)
    (h : ∀ c ∈ cs, c.isDigit = true) : stripChars cs = cs := by
  unfold stripChars
  rw [dropWhile_pyIsSpace_digits cs h,
    dropWhile_pyIsSpace_digits cs.reverse
      (fun c hc => h c (List.mem_reverse.mp hc)),
    List.reverse_reverse]

theorem underscoreTail_digits :
    ∀ cs, (∀ c ∈ cs, c.isDigit = true) → underscoreTail cs = true
  | [], _ => rfl
  | c :: rest, h => by
    have hc := h c (List.mem_cons_self c rest)
    have hne : (c == '_') = false := by
      rw [beq_eq_false_iff_ne]
      intro he
      subst he
      exact absurd hc (by decide)
    have ht := underscoreTail_digits rest
      (fun d hd => h d (List.mem_cons_of_mem c hd))
    rw [underscoreTail.eq_def]
    simp [hne, hc, ht]

theorem validDigitsU_digits (cs : List Char) (hne : cs ≠ [])
    (h : ∀ c ∈ cs, c.isDigit = true) : validDigitsU cs = true := by
  cases cs with
  | nil => exact absurd rfl hne
  | cons c rest =>
    rw [validDigitsU]
    simp [h c (List.mem_cons_self c rest),
      underscoreTail_digits rest (fun d hd => h d (List.mem_cons_of_mem c hd))]

theorem pythonIntChars_digits (cs : List Char) (hne : cs ≠ [])
    (h : ∀ c ∈ cs, c.isDigit = true) :
    pythonIntChars cs = some (digitsToNat cs : Int) := by
  unfold pythonIntChars
  rw [stripChars_digits cs h]
  cases cs with
  | nil => exact absurd rfl hne
  | cons c rest =>
    have hc := h c (List.mem_cons_self c rest)
    have h1 : (c == '+') = false := by
      rw [beq_eq_false_iff_ne]
      intro he
      subst he
      exact absurd hc (by decide)
    have h2 : (c == '-') = false := by
      rw [beq_eq_false_iff_ne]
      intro he
      subst he
      exact absurd hc (by decide)
    simp [h1, h2, validDigitsU_digits _ (by simp) h]

theorem string_toList_ne_nil (s : String) (h : s ≠ "") : s.toList ≠ [] := by
  intro he
  apply h
  cases s with
  | mk data => cases data with
    | nil => rfl
    | cons c cs => simp [String.toList] at he

theorem format_time_relative (fromiso : String → Option Int) (now : Int)
    (s : String) (ds : List Char) (u : Char) (hlist : s.toList = ds ++ [u])
    (hne : ds ≠ []) (hd : ∀ c ∈ ds, c.isDigit = true)
    (hu : u = 's' ∨ u = 'm' ∨ u = 'h') :
    Loki.format_time_for_loki fromiso now (some s) =
      some (.rfc3339 (now - (digitsToNat ds : Int) * unitSeconds u)) := by
  have hsne : s ≠ "" := by
    intro he
    rw [he, (by decide : "".toList = ([] : List Char))] at hlist
    exact absurd hlist.symm (by simp)
  simp only [Loki.format_time_for_loki]
  rw [if_neg hsne, hlist, List.getLast?_concat, List.dropLast_concat,
    pythonIntChars_digits ds hne hd]
  rcases hu with rfl | rfl | rfl <;> simp [unitSeconds]

theorem format_time_passthrough (fromiso : String → Option Int) (now : Int)
    (s : String) (hsne : s ≠ "")
    (h1 : ∀ c, s.toList.getLast? = some c → (c = 's' ∨ c = 'm' ∨ c = 'h') →
      pythonIntChars s.toList.dropLast = none)
    (h2 : s.toList.contains 'T' = true → fromiso s = none) :
    Loki.format_time_for_loki fromiso now (some s) = some (.raw s) := by
  simp only [Loki.format_time_for_loki]
  rw [if_neg hsne]
  split
  next hnone =>
    exact absurd (List.getLast?_eq_none_iff.mp hnone)
      (string_toList_ne_nil s hsne)
  next c hlast =>
    by_cases hc : (c == 'm' || c == 'h' || c == 's') = true
    · have hcor : c = 's' ∨ c = 'm' ∨ c = 'h' := by
        simp only [Bool.or_eq_true, beq_iff_eq] at hc
        tauto
      rw [if_pos hc, h1 c hlast hcor]
    · rw [if_neg hc]
      unfold Loki.format_time_tail
      by_cases ht : s.toList.contains 'T' = true
      · rw [if_pos ht, h2 ht]
      · rw [if_neg ht]

theorem find_root_span_eq (spans : List Jaeger.JSpan) :
    Jaeger.find_root_span spans =
      ((spans.filter (fun sp => !Jaeger.has_child_of sp)).head?).map
        Jaeger.mk_root_of := by
  induction spans with
  | nil => rfl
  | cons sp rest ih =>
    cases h : Jaeger.has_child_of sp with
    | true => simp [Jaeger.find_root_span, h, ih]
    | false => simp [Jaeger.find_root_span, h]

theorem foldl_insert_services (l : List Jaeger.JDep)
    (acc : Finset (Option String)) :
    l.foldl (fun a d => insert d.child (insert d.parent a)) acc =
      acc ∪ (l.map Jaeger.JDep.parent).toFinset ∪
        (l.map Jaeger.JDep.child).toFinset := by
  induction l generalizing acc with
  | nil => simp
  | cons d rest ih =>
    rw [List.foldl_cons, ih]
    ext x
    simp only [Finset.mem_union, Finset.mem_insert, List.map_cons,
      List.toFinset_cons, List.mem_toFinset, List.mem_map, List.mem_cons,
      exists_eq_or_imp]
    aesop

theorem countP_add_countP_compl {α : Type} (p q : α → Bool) :
    ∀ l : List α, (∀ a ∈ l, q a = !p a) → l.countP p + l.countP q = l.length
  | [], _ => rfl
  | a :: l, h => by
    have ih := countP_add_countP_compl p q l
      (fun x hx => h x (List.mem_cons_of_mem a hx))
    have ha := h a (List.mem_cons_self a l)
    simp only [List.countP_cons, List.length_cons, ha]
    by_cases hp : p a = true <;> simp [hp] <;> omega

theorem string_append_right_ne_empty (s t : String) (ht : t ≠ "") :
    s ++ t ≠ "" := by
  intro he
  apply ht
  have hl := congrArg String.length he
  rw [String.length_append, String.length_empty] at hl
  have ht0 : t.length = 0 := by omega
  cases t with
  | mk data =>
    cases data with
    | nil => rfl
    | cons c cs => simp [String.length] at ht0

theorem query_logs_no_data (resp : Loki.LokiResponse) (q : String)
    (st et : Option String) (lim : Int) (dir : String) (hq : q ≠ "")
    (hd : resp.data = none) :
    Loki.query_logs resp q st et lim dir =
      .error (.lokiAPIError "Invalid response format from Loki API") := by
  rw [Loki.query_logs]
  unfold Loki.query_logs_body
  rw [if_neg hq, hd]
  rfl

theorem search_logs_propagates (resp : Loki.LokiResponse)
    (tid lbl : String) (st et : Option String) (lim : Int)
    (htid : tid ≠ "") (hlbl : lbl ≠ "") (hd : resp.data = none) :
    Loki.search_logs_by_trace_id resp tid lbl st et lim =
      .error (.lokiAPIError "Invalid response format from Loki API") := by
  have hq : ("\x7b" ++ lbl ++ "\x7d | json | trace_id=\"" ++ tid ++ "\"") ≠ "" :=
    string_append_right_ne_empty _ _ (by decide)
  rw [Loki.search_logs_by_trace_id]
  unfold Loki.search_logs_by_trace_id_body
  rw [if_neg htid, if_neg hlbl]
  simp only [query_logs_no_data resp _ _ et lim "backward" hq hd,
    Loki.catch_wrap_loki]

/-! ### The claims -/

/-- C1, counterexample: at a concrete Jaeger response whose data holds one
trace with 3 spans, exactly one of which (the second) has no `CHILD_OF`
reference, `get_trace "abc123"` returns exactly the record
`{trace_id, spans, processes}` — the complete returned record is exhibited
and it has no root-span component (the `TraceResult` shape mirrors the keys
built at jaeger.py lines 131-136), even though a root span exists and
`_find_root_span` (used only by `search_traces`) would identify it. -/
theorem c1_counterexample :
    Jaeger.get_trace "abc123" c1resp =
      .ok { trace_id := "abc123"
            spans := [Jaeger.format_span c1span1, Jaeger.format_span c1span2,
                      Jaeger.format_span c1span3]
            processes := [] } ∧
    Jaeger.find_root_span c1trace.spans = some (Jaeger.mk_root_of c1span2) := by
  constructor <;> rfl

/-- C1, amended: for a non-empty trace ID and a response whose data holds a
first trace with 3 spans exactly one of which is parentless, `get_trace`
returns a record with exactly 3 span entries (and no root-span field — the
record is exhibited in full); the root span of those spans, as computed by
`_find_root_span` (exposed via `search_traces`), matches the parentless
span's operation name and service name. -/
theorem c1_amended_root_span (tid : String)
    (resp : Jaeger.JaegerTracesResponse) (tr : Jaeger.JTrace)
    (rest : List Jaeger.JTrace) (s : Jaeger.JSpan) (htid : tid ≠ "")
    (hdata : resp.data = some (tr :: rest)) (hlen : tr.spans.length = 3)
    (hroot : tr.spans.filter (fun sp => !Jaeger.has_child_of sp) = [s]) :
    Jaeger.get_trace tid resp =
      .ok { trace_id := tid, spans := tr.spans.map Jaeger.format_span,
            processes := tr.processes } ∧
    (tr.spans.map Jaeger.format_span).length = 3 ∧
    (Jaeger.find_root_span tr.spans).map root_identity =
      some (s.operationName, s.processServiceName.getD "") := by
  refine ⟨?_, by simp [hlen], ?_⟩
  · rw [Jaeger.get_trace, catch_wrap_jaeger_ok]
    unfold Jaeger.get_trace_body
    rw [if_neg htid, hdata]
  · rw [find_root_span_eq, hroot]
    rfl

/-- C1, witness for the amended theorem at the concrete three-span trace:
the root identity is the parentless second span's operation and service
name. -/
theorem c1_amended_witness :
    (Jaeger.find_root_span c1trace.spans).map root_identity =
      some (some "op2", "svc2") :=
  (c1_amended_root_span "abc123" c1resp c1trace [] c1span2 (by decide) rfl
    rfl (by decide)).2.2

/-- C2, counterexample: `search_logs_by_trace_id` is not partial-success.
At a concrete Loki response missing the `"data"` key, its single underlying
`query_logs` sub-query fails and the whole call raises the `LokiAPIError`
unchanged — no per-item error entry is recorded in a returned result. -/
theorem c2_counterexample :
    Loki.search_logs_by_trace_id lokiNoData "abc123"
        "service_name=\"user-service\"" none none 100 =
      .error (.lokiAPIError "Invalid response format from Loki API") := by
  rfl

/-- C2, amended: the two Prometheus composites (`analyze_http_metrics`,
`check_alerting_thresholds`) catch each sub-query's `PrometheusAPIError`
individually and record it as a per-item error entry, never raising (they
return a result with one well-formed partial entry per sub-query);
`search_logs_by_trace_id`, by contrast, issues a single underlying
`query_logs` call and propagates its `LokiAPIError`, failing as a whole
like the single-query tools. -/
theorem c2_amended_composites :
    (∀ (backend : String → Prometheus.PromResponse) (sn : Option String)
        (tr : String),
      Prometheus.analyze_http_metrics backend sn tr =
        .ok (Prometheus.analyze_http_value backend sn tr) ∧
      (Prometheus.analyze_http_value backend sn tr).metrics.length =
        (Prometheus.http_queries sn tr).length ∧
      (Prometheus.analyze_http_value backend sn tr).metrics.countP
        entry_part_ok =
        (Prometheus.analyze_http_value backend sn tr).metrics.length) ∧
    (∀ (backend : String → Prometheus.PromResponse) (sn : Option String),
      Prometheus.check_alerting_thresholds backend sn =
        .ok (check_alerting_value backend sn) ∧
      (check_alerting_value backend sn).alerts.length =
        (Prometheus.alert_queries sn).length ∧
      (check_alerting_value backend sn).alerts.countP alert_part_ok =
        (check_alerting_value backend sn).alerts.length) ∧
    (∀ (resp : Loki.LokiResponse) (tid lbl : String) (st et : Option String)
        (lim : Int), tid ≠ "" → lbl ≠ "" → resp.data = none →
      Loki.search_logs_by_trace_id resp tid lbl st et lim =
        .error (.lokiAPIError "Invalid response format from Loki API")) := by
  refine ⟨fun backend sn tr => ⟨analyze_http_metrics_eq backend sn tr, ?_, ?_⟩,
    fun backend sn => ⟨check_alerting_thresholds_eq backend sn, ?_, ?_⟩,
    fun resp tid lbl st et lim htid hlbl hd =>
      search_logs_propagates resp tid lbl st et lim htid hlbl hd⟩
  · simp [Prometheus.analyze_http_value]
  · rw [List.countP_eq_length]
    intro e he
    simp only [Prometheus.analyze_http_value, List.mem_map] at he
    obtain ⟨nq, _, rfl⟩ := he
    cases h : Prometheus.query_prometheus nq.2 (backend nq.2) with
    | ok r => simp [entry_part_ok, Prometheus.metric_entry_of, h]
    | error e => simp [entry_part_ok, Prometheus.metric_entry_of, h]
  · simp [check_alerting_value, alert_entries_of]
  · rw [List.countP_eq_length]
    intro a ha
    simp only [check_alerting_value, alert_entries_of, List.mem_map] at ha
    obtain ⟨nc, _, rfl⟩ := ha
    cases h : Prometheus.query_prometheus nc.2.query (backend nc.2.query) with
    | ok r => simp [alert_part_ok, Prometheus.alert_entry_of, h]
    | error e => simp [alert_part_ok, Prometheus.alert_entry_of, h]

/-- C2, witness for the amended theorem: the Loki propagation part applied
at concrete inputs. -/
theorem c2_amended_witness :
    Loki.search_logs_by_trace_id lokiNoData "tid1" "app=\"x\"" none none 50 =
      .error (.lokiAPIError "Invalid response format from Loki API") :=
  c2_amended_composites.2.2 lokiNoData "tid1" "app=\"x\"" none none 50
    (by decide) (by decide) rfl

/-- C3: for `analyze_http_metrics` with any service name and time range,
when exactly one of the 8 constituent sub-queries fails with a Prometheus
backend error (exactly one `query_prometheus` outcome is an exception) and
the other 7 succeed, the call does not raise (it returns `.ok`) and the
metrics mapping has exactly 8 entries: 1 carrying an error field with the
failure message and status `"error"`, 7 carrying the sub-query's data, and
every entry consistent with its own sub-query's outcome (data and status
on success, message and `"error"` status on failure). -/
theorem c3_one_failed_subquery (backend : String → Prometheus.PromResponse)
    (sn : Option String) (tr : String)
    (hone : (prom_outcomes backend (Prometheus.http_queries sn tr)).countP
      except_is_error = 1) :
    Prometheus.analyze_http_metrics backend sn tr =
      .ok (Prometheus.analyze_http_value backend sn tr) ∧
    (Prometheus.analyze_http_value backend sn tr).metrics.length = 8 ∧
    (Prometheus.analyze_http_value backend sn tr).metrics.countP
      entry_has_error = 1 ∧
    (Prometheus.analyze_http_value backend sn tr).metrics.countP
      entry_has_data = 7 ∧
    (Prometheus.analyze_http_value backend sn tr).metrics.countP
      (metric_entry_consistent backend) = 8 := by
  have hlen : (Prometheus.http_queries sn tr).length = 8 := by
    simp [Prometheus.http_queries]
  have herr : (Prometheus.analyze_http_value backend sn tr).metrics.countP
      entry_has_error = 1 := by
    rw [← hone]
    simp only [Prometheus.analyze_http_value, prom_outcomes, List.countP_map]
    refine List.countP_congr (fun nq _ => ?_)
    simp only [Function.comp_apply]
    cases h : Prometheus.query_prometheus nq.2 (backend nq.2) with
    | ok r => simp [entry_has_error, Prometheus.metric_entry_of, h,
        except_is_error]
    | error e => simp [entry_has_error, Prometheus.metric_entry_of, h,
        except_is_error]
  refine ⟨analyze_http_metrics_eq backend sn tr, ?_, herr, ?_, ?_⟩
  · simp [Prometheus.analyze_http_value, hlen]
  · have hsum := countP_add_countP_compl entry_has_error entry_has_data
      (Prometheus.analyze_http_value backend sn tr).metrics ?_
    · have hl : (Prometheus.analyze_http_value backend sn tr).metrics.length
          = 8 := by simp [Prometheus.analyze_http_value, hlen]
      omega
    · intro a ha
      simp only [Prometheus.analyze_http_value, List.mem_map] at ha
      obtain ⟨nq, _, rfl⟩ := ha
      cases h : Prometheus.query_prometheus nq.2 (backend nq.2) with
      | ok r => simp [entry_has_error, entry_has_data,
          Prometheus.metric_entry_of, h]
      | error e => simp [entry_has_error, entry_has_data,
          Prometheus.metric_entry_of, h]
  · rw [List.countP_eq_length.mpr]
    · simp [Prometheus.analyze_http_value, hlen]
    · intro a ha
      simp only [Prometheus.analyze_http_value, List.mem_map] at ha
      obtain ⟨nq, _, rfl⟩ := ha
      cases h : Prometheus.query_prometheus nq.2 (backend nq.2) with
      | ok r => simp [metric_entry_consistent, Prometheus.metric_entry_of, h]
      | error e => simp [metric_entry_consistent, Prometheus.metric_entry_of, h]

/-- C3, witness: with the backend that fails exactly the `active_requests`
sub-query of the `"checkout"` analysis, the metrics mapping carries exactly
one error entry. -/
theorem c3_witness :
    (Prometheus.analyze_http_value backendOneFail (some "checkout")
      "5m").metrics.countP entry_has_error = 1 :=
  (c3_one_failed_subquery backendOneFail (some "checkout") "5m"
    (by decide)).2.2.1

/-- C4: a backend response missing the expected top-level data field makes
the tool fail with that backend's own error kind and no partial result:
Jaeger's `get_services` and Loki's `query_logs` raise their module's
`Invalid response format` error directly, and Prometheus's
`query_prometheus` (status `"success"` but no `"data"` key) has its
internal `KeyError('data')` caught at the tool boundary and re-raised
wrapped as a `PrometheusAPIError` — never an unhandled missing-key fault. -/
theorem c4_missing_data_field :
    (∀ resp : Jaeger.JaegerListResponse, resp.data = none →
      Jaeger.get_services resp =
        .error (.jaegerAPIError "Invalid response format from Jaeger API")) ∧
    (∀ (resp : Loki.LokiResponse) (q : String) (st et : Option String)
        (lim : Int) (dir : String), q ≠ "" → resp.data = none →
      Loki.query_logs resp q st et lim dir =
        .error (.lokiAPIError "Invalid response format from Loki API")) ∧
    (∀ (resp : Prometheus.PromResponse) (q : String), q ≠ "" →
      resp.status = some "success" → resp.data = none →
      Prometheus.query_prometheus q resp =
        .error (.prometheusAPIError "Failed to execute query: 'data'")) := by
  refine ⟨fun resp hd => ?_, fun resp q st et lim dir hq hd =>
    query_logs_no_data resp q st et lim dir hq hd, fun resp q hq hs hd => ?_⟩
  · rw [Jaeger.get_services]
    unfold Jaeger.get_services_body
    rw [hd]
    rfl
  · rw [Prometheus.query_prometheus]
    unfold Prometheus.query_prometheus_body
    rw [if_neg hq, hs, hd, if_neg (by simp)]
    rfl

/-- C4, witness: the three data-missing failures at concrete inputs. -/
theorem c4_witness :
    Jaeger.get_services jaegerNoData =
      .error (.jaegerAPIError "Invalid response format from Jaeger API") ∧
    Loki.query_logs lokiNoData "\x7bservice_name=\"x\"\x7d" none none 100
        "backward" =
      .error (.lokiAPIError "Invalid response format from Loki API") ∧
    Prometheus.query_prometheus "up" promNoData =
      .error (.prometheusAPIError "Failed to execute query: 'data'") :=
  ⟨c4_missing_data_field.1 jaegerNoData rfl,
   c4_missing_data_field.2.1 lokiNoData "\x7bservice_name=\"x\"\x7d" none none
     100 "backward" (by decide) rfl,
   c4_missing_data_field.2.2 promNoData "up" (by decide) rfl rfl⟩

/-- C5: `analyze_service_dependencies` with a (truthy) service name `S`
returns `.ok`; the returned dependency entries are exactly the backend
edges with `parent == S` or `child == S`, in source order; the
`total_dependencies` count equals the number of returned edges; and the
`unique_services` set equals the union of all parent and child names over
the returned edges. -/
theorem c5_dependency_filter (S : String) (lb : Int)
    (deps : List Jaeger.JDep) (hS : S ≠ "") :
    Jaeger.analyze_service_dependencies (some S) lb { data := some deps } =
      .ok (Jaeger.deps_result_of (some S) lb deps) ∧
    (Jaeger.deps_result_of (some S) lb deps).dependencies =
      (deps.filter (fun d => d.parent == some S || d.child == some S)).map
        Jaeger.dep_entry_of ∧
    (Jaeger.deps_result_of (some S) lb deps).total_dependencies =
      (deps.filter (fun d => d.parent == some S || d.child == some S)).length ∧
    (Jaeger.deps_result_of (some S) lb deps).unique_services =
      ((deps.filter (fun d => d.parent == some S || d.child == some S)).map
        Jaeger.JDep.parent).toFinset ∪
      ((deps.filter (fun d => d.parent == some S || d.child == some S)).map
        Jaeger.JDep.child).toFinset := by
  have hf : Jaeger.filtered_dependencies (some S) deps =
      deps.filter (fun d => d.parent == some S || d.child == some S) := by
    unfold Jaeger.filtered_dependencies
    rw [if_pos]
    simp only [truthyOpt, bne_iff_ne, ne_eq]
    exact hS
  refine ⟨?_, ?_, ?_, ?_⟩
  · rw [Jaeger.analyze_service_dependencies, catch_wrap_jaeger_ok]
    rfl
  · simp only [Jaeger.deps_result_of]
    rw [hf]
  · simp only [Jaeger.deps_result_of]
    rw [hf]
  · simp only [Jaeger.deps_result_of]
    rw [hf, foldl_insert_services]
    simp

/-- C5, witness: the dependency analysis at a concrete three-edge list
filtered by service `"a"`. -/
theorem c5_witness :
    Jaeger.analyze_service_dependencies (some "a") 24
        { data := some demoDeps } =
      .ok (Jaeger.deps_result_of (some "a") 24 demoDeps) :=
  (c5_dependency_filter "a" 24 demoDeps (by decide)).1

/-- C6: the Loki time formatter.  First part: for every time string made of
one or more digits followed by a unit suffix `'s'`, `'m'` or `'h'` (its
character list is `ds ++ [u]` with `ds` nonempty all-digit), the result is
the absolute timestamp `now − value×unit`, where `now` is the UTC clock
instant (in epoch seconds) read at call time.  Second part: a nonempty time
string that parses in neither branch (its relative-suffix parse fails when
its last character is a unit, and its ISO parse fails when it contains a
`'T'`) is passed through unchanged rather than failing. -/
theorem c6_time_format :
    (∀ (fromiso : String → Option Int) (now : Int) (s : String)
        (ds : List Char) (u : Char), s.toList = ds ++ [u] → ds ≠ [] →
      (∀ c ∈ ds, c.isDigit = true) → (u = 's' ∨ u = 'm' ∨ u = 'h') →
      Loki.format_time_for_loki fromiso now (some s) =
        some (.rfc3339 (now - (digitsToNat ds : Int) * unitSeconds u))) ∧
    (∀ (fromiso : String → Option Int) (now : Int) (s : String), s ≠ "" →
      (∀ c, s.toList.getLast? = some c → (c = 's' ∨ c = 'm' ∨ c = 'h') →
        pythonIntChars s.toList.dropLast = none) →
      (s.toList.contains 'T' = true → fromiso s = none) →
      Loki.format_time_for_loki fromiso now (some s) = some (.raw s)) :=
  ⟨format_time_relative, format_time_passthrough⟩

/-- C6, witness: `"45m"` resolves to 45 minutes before `now = 0`, and the
unparsable `"abch"` is passed through unchanged. -/
theorem c6_witness :
    Loki.format_time_for_loki no_iso 0 (some "45m") =
      some (.rfc3339 (0 - (digitsToNat ['4', '5'] : Int) * unitSeconds 'm')) ∧
    Loki.format_time_for_loki no_iso 0 (some "abch") = some (.raw "abch") := by
  constructor
  · exact c6_time_format.1 no_iso 0 "45m" ['4', '5'] 'm' (by decide)
      (by decide) (by decide) (Or.inr (Or.inl rfl))
  · exact c6_time_format.2 no_iso 0 "abch" (by decide)
      (fun c _ _ => by decide) (fun _ => rfl)

/-- C7: every Prometheus tool validates the backend's own `status` field:
whenever the decoded response's status is anything other than `"success"`
(and the tool's input validation passes), the call fails with a
`PrometheusAPIError` whose message carries the backend-supplied error text
(default `"Unknown error"`), and no result is returned. -/
theorem c7_status_validation :
    (∀ (q : String) (resp : Prometheus.PromResponse), q ≠ "" →
      resp.status ≠ some "success" →
      Prometheus.query_prometheus q resp =
        .error (.prometheusAPIError
          ("Prometheus query failed: " ++ resp.error.getD "Unknown error"))) ∧
    (∀ (q s e step : String) (resp : Prometheus.PromResponse), q ≠ "" →
      s ≠ "" → e ≠ "" → resp.status ≠ some "success" →
      Prometheus.query_range_prometheus q s e step resp =
        .error (.prometheusAPIError ("Prometheus range query failed: " ++
          resp.error.getD "Unknown error"))) ∧
    (∀ resp : Prometheus.PromMetadataResponse, resp.status ≠ some "success" →
      Prometheus.get_metrics_metadata resp =
        .error (.prometheusAPIError
          ("Failed to get metadata: " ++ resp.error.getD "Unknown error"))) ∧
    (∀ resp : Prometheus.PromListResponse, resp.status ≠ some "success" →
      Prometheus.get_label_names resp =
        .error (.prometheusAPIError ("Failed to get label names: " ++
          resp.error.getD "Unknown error"))) ∧
    (∀ (lbl : String) (resp : Prometheus.PromListResponse), lbl ≠ "" →
      resp.status ≠ some "success" →
      Prometheus.get_label_values lbl resp =
        .error (.prometheusAPIError ("Failed to get label values: " ++
          resp.error.getD "Unknown error"))) ∧
    (∀ (ms : List String) (resp : Prometheus.PromListResponse), ms ≠ [] →
      resp.status ≠ some "success" →
      Prometheus.get_series ms resp =
        .error (.prometheusAPIError ("Failed to find series: " ++
          resp.error.getD "Unknown error"))) := by
  refine ⟨fun q resp hq hs => ?_, fun q s e step resp hq h1 h2 hs => ?_,
    fun resp hs => ?_, fun resp hs => ?_, fun lbl resp hl hs => ?_,
    fun ms resp hm hs => ?_⟩
  · rw [Prometheus.query_prometheus]
    unfold Prometheus.query_prometheus_body
    rw [if_neg hq, if_pos hs]
    rfl
  · rw [Prometheus.query_range_prometheus]
    unfold Prometheus.query_range_prometheus_body
    rw [if_neg hq, if_neg h1, if_neg h2, if_pos hs]
    rfl
  · rw [Prometheus.get_metrics_metadata]
    unfold Prometheus.get_metrics_metadata_body
    rw [if_pos hs]
    rfl
  · rw [Prometheus.get_label_names]
    unfold Prometheus.get_label_names_body
    rw [if_pos hs]
    rfl
  · rw [Prometheus.get_label_values]
    unfold Prometheus.get_label_values_body
    rw [if_neg hl, if_pos hs]
    rfl
  · rw [Prometheus.get_series]
    unfold Prometheus.get_series_body
    rw [if_neg hm, if_pos hs]
    rfl

/-- C7, witness: all six tools at a concrete `status: "error"` response
with backend error text `"boom"`. -/
theorem c7_witness :
    Prometheus.query_prometheus "up" promBadStatus =
      .error (.prometheusAPIError "Prometheus query failed: boom") ∧
    Prometheus.query_range_prometheus "up" "0" "1" "15s" promBadStatus =
      .error (.prometheusAPIError "Prometheus range query failed: boom") ∧
    Prometheus.get_metrics_metadata promMetaBadStatus =
      .error (.prometheusAPIError "Failed to get metadata: boom") ∧
    Prometheus.get_label_names promListBadStatus =
      .error (.prometheusAPIError "Failed to get label names: boom") ∧
    Prometheus.get_label_values "job" promListBadStatus =
      .error (.prometheusAPIError "Failed to get label values: boom") ∧
    Prometheus.get_series ["up"] promListBadStatus =
      .error (.prometheusAPIError "Failed to find series: boom") :=
  ⟨c7_status_validation.1 "up" promBadStatus (by decide) (by decide),
   c7_status_validation.2.1 "up" "0" "1" "15s" promBadStatus (by decide)
     (by decide) (by decide) (by decide),
   c7_status_validation.2.2.1 promMetaBadStatus (by decide),
   c7_status_validation.2.2.2.1 promListBadStatus (by decide),
   c7_status_validation.2.2.2.2.1 "job" promListBadStatus (by decide)
     (by decide),
   c7_status_validation.2.2.2.2.2 ["up"] promListBadStatus (by decide)
     (by decide)⟩

theorem opt_param_no_tags (cond : Bool) (key : String) (v : Jaeger.ParamVal)
    (l : List (String × Jaeger.ParamVal)) (hk : (key == "tags") = false)
    (h : l.countP is_tags_kv = 0) :
    (Jaeger.opt_param cond key v l).countP is_tags_kv = 0 := by
  unfold Jaeger.opt_param
  split
  · simp [List.countP_append, h, is_tags_kv, hk]
  · exact h

theorem start_param_no_tags (f : String → Option Int) (st : Option String)
    (s1 : List (String × Jaeger.ParamVal))
    (h : Jaeger.start_param f st = .ok s1) : s1.countP is_tags_kv = 0 := by
  unfold Jaeger.start_param at h
  split at h
  · split at h
    · exact absurd h (by simp)
    · obtain rfl := Except.ok.inj h
      simp [is_tags_kv]
  · obtain rfl := Except.ok.inj h
    rfl

theorem end_param_no_tags (f : String → Option Int) (et : Option String)
    (s2 : List (String × Jaeger.ParamVal))
    (h : Jaeger.end_param f et = .ok s2) : s2.countP is_tags_kv = 0 := by
  unfold Jaeger.end_param at h
  split at h
  · split at h
    · exact absurd h (by simp)
    · obtain rfl := Except.ok.inj h
      simp [is_tags_kv]
  · obtain rfl := Except.ok.inj h
    rfl

theorem base_search_params_no_tags (f : String → Option Int)
    (p : Jaeger.TraceSearchParams) (l : List (String × Jaeger.ParamVal))
    (h : Jaeger.base_search_params f p = .ok l) :
    l.countP is_tags_kv = 0 := by
  unfold Jaeger.base_search_params at h
  cases hs : Jaeger.start_param f p.start_time with
  | error e => rw [hs] at h; exact absurd h (by simp)
  | ok s1 =>
    cases he : Jaeger.end_param f p.end_time with
    | error e2 => rw [hs, he] at h; exact absurd h (by simp)
    | ok s2 =>
      rw [hs, he] at h
      obtain rfl := Except.ok.inj h
      have h0 : ([("limit", Jaeger.ParamVal.int p.limit)] :
          List (String × Jaeger.ParamVal)).countP is_tags_kv = 0 := by
        simp [is_tags_kv]
      have h1 := opt_param_no_tags (truthyOpt p.service) "service"
        (Jaeger.ParamVal.str (p.service.getD "")) _ (by decide) h0
      have h2 := opt_param_no_tags (truthyOpt p.operation) "operation"
        (Jaeger.ParamVal.str (p.operation.getD "")) _ (by decide) h1
      have h3 := opt_param_no_tags p.min_duration.isSome "minDuration"
        (Jaeger.ParamVal.str (p.min_duration.getD "")) _ (by decide) h2
      have h4 := opt_param_no_tags p.max_duration.isSome "maxDuration"
        (Jaeger.ParamVal.str (p.max_duration.getD "")) _ (by decide) h3
      have h5 := opt_param_no_tags (truthyOpt p.lookback) "lookback"
        (Jaeger.ParamVal.str (p.lookback.getD "")) _ (by decide) h4
      simp only [List.countP_append,
        start_param_no_tags f p.start_time s1 hs,
        end_param_no_tags f p.end_time s2 he, h5]

/-- C8: in the trace-search query builder, a boolean tag value `True` is
serialized as the string `"true"` (and `False` as `"false"`); every
non-boolean tag value is converted to its Python string form; and when a
nonempty tag mapping is supplied and the builder succeeds, the outgoing
parameters contain exactly one `"tags"` entry, whose value is the JSON
text of the stringified tag mapping. -/
theorem c8_tag_serialization :
    (Jaeger.stringify_tag_value (.pyBool true) = "true" ∧
      Jaeger.stringify_tag_value (.pyBool false) = "false") ∧
    (∀ v : PyVal, is_bool_val v = false →
      Jaeger.stringify_tag_value v = py_str_of_val v) ∧
    (∀ (fromisoUs : String → Option Int) (p : Jaeger.TraceSearchParams)
        (ts : List (String × PyVal)) (ps : List (String × Jaeger.ParamVal)),
      p.tags = some ts → ts ≠ [] →
      Jaeger.build_trace_search_params fromisoUs p = .ok ps →
      ps.countP is_tags_kv = 1 ∧
      ("tags", Jaeger.ParamVal.str (json_dumps_str_obj
        (Jaeger.stringify_tags ts))) ∈ ps) := by
  refine ⟨⟨by decide, by decide⟩, fun v hv => ?_,
    fun fromisoUs p ts ps hts htne hok => ?_⟩
  · simp [Jaeger.stringify_tag_value, hv]
  · unfold Jaeger.build_trace_search_params at hok
    cases hb : Jaeger.base_search_params fromisoUs p with
    | error e => rw [hb] at hok; exact absurd hok (by simp)
    | ok params =>
      rw [hb] at hok
      have htt : Jaeger.tags_truthy p.tags = true := by
        rw [hts]
        unfold Jaeger.tags_truthy
        cases ts with
        | nil => exact absurd rfl htne
        | cons a l => rfl
      have hok2 : (Except.ok (if Jaeger.tags_truthy p.tags = true then
          params ++ [("tags", Jaeger.ParamVal.str (json_dumps_str_obj
            (Jaeger.stringify_tags (p.tags.getD []))))]
          else params) : Except PyExc (List (String × Jaeger.ParamVal))) =
            Except.ok ps := hok
      rw [if_pos htt] at hok2
      obtain rfl := Except.ok.inj hok2
      have h0 := base_search_params_no_tags fromisoUs p params hb
      constructor
      · simp [List.countP_append, h0, is_tags_kv]
      · rw [hts]
        simp

/-- C8, witness: a single boolean tag `{"error": True}` is serialized to
the JSON text `{"error": "true"}` in the one `"tags"` parameter. -/
theorem c8_witness :
    ([("limit", Jaeger.ParamVal.int 20),
      ("tags", Jaeger.ParamVal.str "\x7b\"error\": \"true\"\x7d")] :
        List (String × Jaeger.ParamVal)).countP is_tags_kv = 1 ∧
    ("tags", Jaeger.ParamVal.str (json_dumps_str_obj
        (Jaeger.stringify_tags [("error", PyVal.pyBool true)]))) ∈
      ([("limit", Jaeger.ParamVal.int 20),
        ("tags", Jaeger.ParamVal.str "\x7b\"error\": \"true\"\x7d")] :
          List (String × Jaeger.ParamVal)) :=
  c8_tag_serialization.2.2 no_iso p8 [("error", PyVal.pyBool true)]
    [("limit", Jaeger.ParamVal.int 20),
     ("tags", Jaeger.ParamVal.str "\x7b\"error\": \"true\"\x7d")]
    rfl (by decide) (by rfl)

/-- C9: in every trace entry returned by `search_traces`, the reported
duration equals the first span's duration in the backend's source order
(0 for an empty trace or a first span without a duration); the concrete
two-span trace `demo9` separates this from the alternatives: its first
span's duration is 5 while its root span's duration and its maximum span
duration are both 50. -/
theorem c9_first_span_duration :
    (∀ (fromisoUs : String → Option Int) (p : Jaeger.TraceSearchParams)
        (td : List Jaeger.JTrace) (r : Jaeger.SearchTracesResult),
      Jaeger.search_traces fromisoUs p { data := some td } = .ok r →
      List.map Jaeger.TraceInfo.duration r.traces =
        List.map first_span_duration td) ∧
    (Jaeger.process_trace_data demo9).duration = 5 ∧
    (Jaeger.find_root_span demo9.spans).map Jaeger.RootSpan.duration =
      some (some 50) ∧
    demo9.spans.foldl (fun m sp => max m (sp.duration.getD 0)) 0 = 50 := by
  refine ⟨fun f p td r hok => ?_, by decide, by decide, by decide⟩
  rw [Jaeger.search_traces, catch_wrap_jaeger_ok] at hok
  unfold Jaeger.search_traces_body at hok
  cases hb : Jaeger.build_trace_search_params f p with
  | error e => rw [hb] at hok; exact absurd hok (by simp)
  | ok qp =>
    rw [hb] at hok
    obtain rfl := Except.ok.inj hok
    show List.map Jaeger.TraceInfo.duration
      (td.map Jaeger.process_trace_data) = _
    rw [List.map_map]
    refine List.map_congr_left (fun t _ => ?_)
    cases h : t.spans <;>
      simp [Jaeger.process_trace_data, first_span_duration, h]

/-- C9, witness: the search result over the concrete trace `demo9` reports
its first span's duration. -/
theorem c9_witness :
    List.map Jaeger.TraceInfo.duration demo9Result.traces =
      List.map first_span_duration [demo9] :=
  c9_first_span_duration.1 no_iso p0 [demo9] demo9Result rfl

theorem crit_warn_split (backend : String → Prometheus.PromResponse) :
    ∀ l : List (String × Prometheus.AlertConfig),
      (∀ nc ∈ l, nc.2.severity = "critical" ∨ nc.2.severity = "warning") →
      critical_count backend l + warning_count backend l =
        firing_count backend l
  | [], _ => rfl
  | nc :: rest, hl => by
    have ih := crit_warn_split backend rest
      (fun x hx => hl x (List.mem_cons_of_mem nc hx))
    have hsev := hl nc (List.mem_cons_self nc rest)
    simp only [critical_count, warning_count, firing_count,
      List.countP_cons] at ih ⊢
    rcases hsev with h | h <;> rw [h] <;>
      by_cases hf : (Prometheus.alert_entry_of backend nc.2).firing = true <;>
        simp [hf] <;> omega

theorem alert_severity_cw (sn : Option String) :
    ∀ nc ∈ Prometheus.alert_queries sn,
      nc.2.severity = "critical" ∨ nc.2.severity = "warning" := by
  intro nc h
  simp only [Prometheus.alert_queries, List.mem_cons,
    List.not_mem_nil, or_false] at h
  rcases h with rfl | rfl | rfl | rfl | rfl <;> simp

/-- C10: every `check_alerting_thresholds` result satisfies the summary
invariant: the call returns `.ok`; `firing_alerts` equals the number of
alert entries whose `firing` field is true; `critical_alerts` plus
`warning_alerts` equals `firing_alerts`; and no alert entry both carries
an error and counts as firing — an errored check is never a firing
alert. -/
theorem c10_alert_summary_invariant
    (backend : String → Prometheus.PromResponse) (sn : Option String) :
    Prometheus.check_alerting_thresholds backend sn =
      .ok (check_alerting_value backend sn) ∧
    (check_alerting_value backend sn).summary.firing_alerts =
      (check_alerting_value backend sn).alerts.countP alert_is_firing ∧
    (check_alerting_value backend sn).summary.critical_alerts +
        (check_alerting_value backend sn).summary.warning_alerts =
      (check_alerting_value backend sn).summary.firing_alerts ∧
    (check_alerting_value backend sn).alerts.countP alert_error_firing
      = 0 := by
  refine ⟨check_alerting_thresholds_eq backend sn, ?_, ?_, ?_⟩
  · simp only [check_alerting_value, alert_entries_of, firing_count,
      List.countP_map]
    rfl
  · exact crit_warn_split backend (Prometheus.alert_queries sn)
      (alert_severity_cw sn)
  · rw [List.countP_eq_zero]
    intro a ha
    simp only [check_alerting_value, alert_entries_of, List.mem_map] at ha
    obtain ⟨nc, _, rfl⟩ := ha
    cases h : Prometheus.query_prometheus nc.2.query (backend nc.2.query) with
    | ok r => simp [alert_error_firing, Prometheus.alert_entry_of, h]
    | error e => simp [alert_error_firing, Prometheus.alert_entry_of, h]

/-- C10, witness: the summary invariant instantiated at the all-successful
backend. -/
theorem c10_witness :
    (check_alerting_value backendAllOk none).summary.firing_alerts =
      (check_alerting_value backendAllOk none).alerts.countP
        alert_is_firing :=
  (c10_alert_summary_invariant backendAllOk none).2.1

end InsightBot
